import Mathlib

/-!
A shallow embedding of the TrustBooks backend's document-parsing core
(`app/parsers/base_parser.py`, `app/parsers/invoice_parser.py`,
`app/parsers/bank_statement_parser.py`), with theorems settling the
specification claims about it.

Modelling conventions:
* Python strings are Lean `String`s; byte buffers are `List Nat`.
* Python `float` values are modelled by `PyFloat`: an exact rational plus
  the special values `inf`, `-inf`, `nan`.  The claims under verification
  depend only on whether a string parses as a float and on the decimal it
  denotes, never on IEEE rounding, so the rational model is faithful.
* A Python `dict` field map becomes a structure of `Option` fields; a
  loosely typed value is `PyVal`.
* Code that can raise is modelled with `Option`/`Except`; each
  `try/except` of the source becomes the corresponding total handler.
* External collaborators (the Gemini client, `csv.Sniffer`, `pandas.read_csv`,
  `bytes.decode`) are opaque oracles passed in as parameters; everything the
  repository itself computes is embedded concretely.
-/

namespace TrustBooks

/-! ### Python character and string primitives -/

/-- ASCII whitespace recognised by Python's `str.strip` / `float`. -/
def isPyWs (c : Char) : Bool :=
  c = ' ' || c = '\t' || c = '\n' || c = '\r' || c.toNat = 11 || c.toNat = 12

def isDig (c : Char) : Bool := 48 ≤ c.toNat && c.toNat ≤ 57

def isNzDig (c : Char) : Bool := 49 ≤ c.toNat && c.toNat ≤ 57

/-- Numeric value of a digit character. -/
def dval (c : Char) : Nat := c.toNat - 48

def isUpperAscii (c : Char) : Bool := 65 ≤ c.toNat && c.toNat ≤ 90

def isLowerAscii (c : Char) : Bool := 97 ≤ c.toNat && c.toNat ≤ 122

def isAlphaAscii (c : Char) : Bool := isUpperAscii c || isLowerAscii c

def isAlnumAscii (c : Char) : Bool := isAlphaAscii c || isDig c

/-- ASCII lowering, the part of Python `str.lower` the parser relies on. -/
def lowerChar (c : Char) : Char :=
  if isUpperAscii c then Char.ofNat (c.toNat + 32) else c

/-- ASCII raising, the part of Python `str.upper` the parser relies on. -/
def upperChar (c : Char) : Char :=
  if isLowerAscii c then Char.ofNat (c.toNat - 32) else c

def lowerStr (s : String) : String := String.mk (s.data.map lowerChar)

def upperStr (s : String) : String := String.mk (s.data.map upperChar)

/-- Python `str.strip()` with no argument: trim whitespace at both ends. -/
def pyStrip (s : String) : String :=
  String.mk (((s.data.dropWhile isPyWs).reverse.dropWhile isPyWs).reverse)

/-- Does `pre` occur as a prefix of `cs`? -/
def listStartsWith : List Char → List Char → Bool
  | [], _ => true
  | _ :: _, [] => false
  | p :: ps, c :: cs => p = c && listStartsWith ps cs

/-- Does `needle` occur as a contiguous sublist of `hay`? -/
def listContains (hay needle : List Char) : Bool :=
  match hay with
  | [] => needle.isEmpty
  | _ :: rest => listStartsWith needle hay || listContains rest needle

/-- Python substring test `needle in hay`. -/
def containsSub (hay needle : String) : Bool :=
  listContains hay.data needle.data

/-- Python `s.replace(",", "")`. -/
def stripCommas (s : String) : String :=
  String.mk (s.data.filter (fun c => c ≠ ','))

/-- Characters at which Python `str.splitlines` breaks. -/
def lineBreakChar (c : Char) : Bool :=
  c = '\n' || c = '\r' || c.toNat = 11 || c.toNat = 12 || c.toNat = 28 ||
  c.toNat = 29 || c.toNat = 30 || c.toNat = 133 || c.toNat = 8232 || c.toNat = 8233

def splitlinesAux : List Char → List Char → List String
  | [], acc => if acc.isEmpty then [] else [String.mk acc.reverse]
  | '\r' :: '\n' :: rest, acc => String.mk acc.reverse :: splitlinesAux rest []
  | c :: rest, acc =>
    if lineBreakChar c then String.mk acc.reverse :: splitlinesAux rest []
    else splitlinesAux rest (c :: acc)

/-- Python `str.splitlines()`. -/
def pySplitlines (s : String) : List String := splitlinesAux s.data []

/-- Python `"\n".join(xs)`. -/
def joinLines (xs : List String) : String := String.intercalate "\n" xs

/-! ### Python float parsing (`float(s)` on strings)

`float` strips surrounding whitespace, accepts an optional sign, then either
`inf`/`infinity`/`nan` (case-insensitively) or a decimal mantissa with an
optional exponent; underscores are legal only between two digits. -/

/-- A Python float value as far as the verified claims observe it: either a
finite decimal — held in the unique normal form `(-1)^neg * mant * 10^ex`
with `10 ∤ mant` (and `(false, 0, 0)` for zero), so that structural equality
coincides with numeric equality — or one of the special values. -/
inductive PyFloat where
  | finite (neg : Bool) (mant : Nat) (ex : Int)
  | inf
  | neginf
  | nan
deriving DecidableEq, Repr

/-- Remove all factors of ten from `m`, returning the quotient and the count
(`fuel` bounds the recursion; `m` itself is always enough fuel). -/
def stripTens : Nat → Nat → Nat × Nat
  | 0, m => (m, 0)
  | fuel + 1, m =>
    if m % 10 = 0 ∧ m ≠ 0 then
      let r := stripTens fuel (m / 10)
      (r.1, r.2 + 1)
    else (m, 0)

/-- Normalize a signed decimal `(-1)^neg * mant * 10^ex` into its canonical
`PyFloat.finite` form. -/
def PyFloat.ofDec (neg : Bool) (mant : Nat) (ex : Int) : PyFloat :=
  if mant = 0 then .finite false 0 0
  else
    let r := stripTens mant mant
    .finite neg r.1 (ex + r.2)

/-- Every underscore must sit between two digits (CPython's rule). -/
def underscoresOkAux : Option Char → List Char → Bool
  | _, [] => true
  | prev, c :: rest =>
    if c = '_' then
      (match prev, rest with
       | some p, d :: _ => isDig p && isDig d
       | _, _ => false) && underscoresOkAux (some c) rest
    else underscoresOkAux (some c) rest

def takeDigits (cs : List Char) : List Char × List Char :=
  (cs.takeWhile isDig, cs.dropWhile isDig)

def digitsToNat (ds : List Char) : Nat :=
  ds.foldl (fun a c => 10 * a + dval c) 0

/-- Mantissa: `digits [. digits?] | . digits`; returns the digit string read
as one integer, the number of fractional digits, and the rest. -/
def parseMantissa (cs : List Char) : Option (Nat × Nat × List Char) :=
  let ip := (takeDigits cs).1
  let r1 := (takeDigits cs).2
  match ip, r1 with
  | [], '.' :: r2 =>
    let fp := (takeDigits r2).1
    let r3 := (takeDigits r2).2
    if fp.isEmpty then none
    else some (digitsToNat fp, fp.length, r3)
  | [], _ => none
  | _, '.' :: r2 =>
    let fp := (takeDigits r2).1
    let r3 := (takeDigits r2).2
    some (digitsToNat (ip ++ fp), fp.length, r3)
  | _, _ => some (digitsToNat ip, 0, r1)

/-- Exponent part `('e'|'E') sign? digits`. -/
def parseExpPart (cs : List Char) : Option (Int × List Char) :=
  match cs with
  | c :: r1 =>
    if c = 'e' ∨ c = 'E' then
      let sr : Int × List Char :=
        match r1 with
        | '+' :: r => (1, r)
        | '-' :: r => (-1, r)
        | r => (1, r)
      let ds := (takeDigits sr.2).1
      let r3 := (takeDigits sr.2).2
      if ds.isEmpty then none else some (sr.1 * (digitsToNat ds : Int), r3)
    else none
  | [] => none

def pyFloatBody (neg : Bool) (cs : List Char) : Option PyFloat :=
  let low := cs.map lowerChar
  if low = "inf".data ∨ low = "infinity".data then
    some (if neg then .neginf else .inf)
  else if low = "nan".data then some .nan
  else
    match parseMantissa cs with
    | none => none
    | some (m, k, r1) =>
      match r1 with
      | [] => some (.ofDec neg m (-(k : Int)))
      | c :: _ =>
        if c = 'e' ∨ c = 'E' then
          match parseExpPart r1 with
          | some (e, r2) =>
            if r2.isEmpty then some (.ofDec neg m (e - (k : Int))) else none
          | none => none
        else none

/-- Python `float(s)` for a string argument, modelled exactly as a rational
(special values kept symbolic); `none` models `ValueError`. -/
def pyFloatOfString (s : String) : Option PyFloat :=
  let cs0 := (pyStrip s).data
  if underscoresOkAux none cs0 then
    let cs1 := cs0.filter (fun c => c ≠ '_')
    match cs1 with
    | '+' :: r => pyFloatBody false r
    | '-' :: r => pyFloatBody true r
    | r => pyFloatBody false r
  else none

/-! ### Loosely typed Python values -/

inductive PyVal where
  | str (s : String)
  | num (x : PyFloat)
  | plist (xs : List PyVal)
  | pdict (kvs : List (String × PyVal))

/-- Python truthiness of a value (the `if data.get(field):` test). -/
def PyVal.truthy : PyVal → Bool
  | .str s => !s.isEmpty
  | .num (.finite _ m _) => decide (m ≠ 0)
  | .num _ => true
  | .plist xs => !xs.isEmpty
  | .pdict kvs => !kvs.isEmpty

/-- Rendering of a `PyFloat` as Python would `str()` it.  The verified claims
never depend on the exact rendering of a non-string value; this definition
only has to be some fixed total function. -/
def pyFloatRepr : PyFloat → String
  | .inf => "inf"
  | .neginf => "-inf"
  | .nan => "nan"
  | .finite neg m ex =>
    (if neg then "-" else "") ++ toString m ++ "e" ++ toString ex

/-- Python `str(v)` on a loosely typed value (see `pyFloatRepr`). -/
def pyStrOf : PyVal → String
  | .str s => s
  | .num x => pyFloatRepr x
  | .plist _ => "[...]"
  | .pdict _ => "(dict)"

/-! ### `_parse_date_string`: the shared date normalizer

`BankStatementParser._parse_date_string` tries, in order, the formats
`%d/%m/%Y, %d/%m/%y, %d-%m-%Y, %d-%m-%y, %Y-%m-%d, %d/%m/%Y, %m/%d/%Y,
%m/%d/%y` through `datetime.strptime` and renders the first success via
`strftime("%Y-%m-%d")`.  CPython's `strptime` compiles each directive to a
regular expression — `%d ↦ 3[01]|[12]\d|0[1-9]|[1-9]`,
`%m ↦ 1[0-2]|0[1-9]|[1-9]`, `%Y ↦ \d\d\d\d`, `%y ↦ \d\d` — takes the first
match in backtracking order, requires the match to span the whole string,
and then validates the calendar date through the `datetime` constructor.
The embedding below reproduces exactly that. -/

/-- Alternatives of the `%d` directive, in regex alternation order. -/
def dayAlts : List Char → List (Nat × List Char)
  | [] => []
  | [c] => if isNzDig c then [(dval c, [])] else []
  | c1 :: c2 :: rest =>
    (if c1 = '3' ∧ (c2 = '0' ∨ c2 = '1') then [(30 + dval c2, rest)] else []) ++
    (if (c1 = '1' ∨ c1 = '2') ∧ isDig c2 then [(10 * dval c1 + dval c2, rest)] else []) ++
    (if c1 = '0' ∧ isNzDig c2 then [(dval c2, rest)] else []) ++
    (if isNzDig c1 then [(dval c1, c2 :: rest)] else [])

/-- Alternatives of the `%m` directive, in regex alternation order. -/
def monthAlts : List Char → List (Nat × List Char)
  | [] => []
  | [c] => if isNzDig c then [(dval c, [])] else []
  | c1 :: c2 :: rest =>
    (if c1 = '1' ∧ (c2 = '0' ∨ c2 = '1' ∨ c2 = '2') then [(10 + dval c2, rest)] else []) ++
    (if c1 = '0' ∧ isNzDig c2 then [(dval c2, rest)] else []) ++
    (if isNzDig c1 then [(dval c1, c2 :: rest)] else [])

/-- The `%Y` directive: exactly four digits. -/
def yearFour : List Char → Option (Nat × List Char)
  | a :: b :: c :: d :: rest =>
    if isDig a ∧ isDig b ∧ isDig c ∧ isDig d then
      some (1000 * dval a + 100 * dval b + 10 * dval c + dval d, rest)
    else none
  | _ => none

/-- The `%y` directive: exactly two digits, 00–68 ↦ 2000s, 69–99 ↦ 1900s. -/
def yearTwo : List Char → Option (Nat × List Char)
  | a :: b :: rest =>
    if isDig a ∧ isDig b then
      let v := 10 * dval a + dval b
      some (if v < 69 then 2000 + v else 1900 + v, rest)
    else none
  | _ => none

/-- One token of a compiled `strptime` format. -/
inductive DTok where
  | day
  | month
  | year4
  | year2
  | lit (c : Char)

structure DParts where
  d : Nat := 0
  m : Nat := 0
  y : Nat := 0
deriving DecidableEq, Repr

/-- Run a compiled format with regex backtracking; candidates are produced in
the engine's exploration order, so the head is the match `re` would return. -/
def runToks : List DTok → DParts → List Char → List (DParts × List Char)
  | [], st, cs => [(st, cs)]
  | .day :: ts, st, cs =>
    (dayAlts cs).flatMap fun p => runToks ts { st with d := p.1 } p.2
  | .month :: ts, st, cs =>
    (monthAlts cs).flatMap fun p => runToks ts { st with m := p.1 } p.2
  | .year4 :: ts, st, cs =>
    match yearFour cs with
    | some p => runToks ts { st with y := p.1 } p.2
    | none => []
  | .year2 :: ts, st, cs =>
    match yearTwo cs with
    | some p => runToks ts { st with y := p.1 } p.2
    | none => []
  | .lit c :: ts, st, cs =>
    match cs with
    | c' :: rest => if c' = c then runToks ts st rest else []
    | [] => []

def isLeapYear (y : Nat) : Bool :=
  y % 4 = 0 && (y % 100 ≠ 0 || y % 400 = 0)

def daysInMonth (y m : Nat) : Nat :=
  if m = 2 then (if isLeapYear y then 29 else 28)
  else if m = 4 ∨ m = 6 ∨ m = 9 ∨ m = 11 then 30
  else 31

/-- The validation `datetime(year, month, day)` performs. -/
def validDate (y m d : Nat) : Bool :=
  1 ≤ y && y ≤ 9999 && 1 ≤ m && m ≤ 12 && 1 ≤ d && d ≤ daysInMonth y m

/-- `datetime.strptime(s, fmt)`: first regex match, whole-string requirement,
calendar validation. -/
def strptimeFmt (fmt : List DTok) (s : String) : Option DParts :=
  match (runToks fmt {} s.data).head? with
  | some (st, rest) =>
    if rest.isEmpty ∧ validDate st.y st.m st.d then some st else none
  | none => none

def digitChar (n : Nat) : Char := Char.ofNat (48 + n)

def pad2 (n : Nat) : List Char := [digitChar (n / 10 % 10), digitChar (n % 10)]

def pad4 (n : Nat) : List Char :=
  [digitChar (n / 1000 % 10), digitChar (n / 100 % 10),
   digitChar (n / 10 % 10), digitChar (n % 10)]

/-- `strftime("%Y-%m-%d")`: the zero-padded ISO rendering. -/
def isoRender (st : DParts) : String :=
  String.mk (pad4 st.y ++ '-' :: pad2 st.m ++ '-' :: pad2 st.d)

/-- The format list of `_parse_date_string`, in source order (the sixth entry
is the source's duplicate of the first). -/
def dateFormats : List (List DTok) :=
  [[.day, .lit '/', .month, .lit '/', .year4],
   [.day, .lit '/', .month, .lit '/', .year2],
   [.day, .lit '-', .month, .lit '-', .year4],
   [.day, .lit '-', .month, .lit '-', .year2],
   [.year4, .lit '-', .month, .lit '-', .day],
   [.day, .lit '/', .month, .lit '/', .year4],
   [.month, .lit '/', .day, .lit '/', .year4],
   [.month, .lit '/', .day, .lit '/', .year2]]

/-- `BankStatementParser._parse_date_string`: try the formats in order,
return the first successful parse rendered as ISO, else `None`. -/
def parseDateString (s : String) : Option String :=
  (dateFormats.findSome? fun fmt => strptimeFmt fmt s).map isoRender

/-! ### Regex scanning primitives

The source's regular expressions are simple enough to have deterministic
greedy semantics (character classes of adjacent parts are disjoint), except
for a few bounded repetitions that are handled with explicit backtracking
where they occur.  `searchFrom` reproduces `re.search`'s leftmost-match rule:
try a match at every position, left to right. -/

/-- Python `\s*`. -/
def skipWs (cs : List Char) : List Char := cs.dropWhile isPyWs

/-- Case-insensitive literal (the `re.IGNORECASE` reading of a plain word). -/
def litCI : List Char → List Char → Option (List Char)
  | [], cs => some cs
  | _ :: _, [] => none
  | p :: ps, c :: cs => if lowerChar p = lowerChar c then litCI ps cs else none

/-- An optional single character from a class (`X?`), greedy. -/
def optCh (p : Char → Bool) : List Char → List Char
  | [] => []
  | c :: cs => if p c then cs else c :: cs

/-- Greedy `C+`: the maximal nonempty run of class characters. -/
def take1While (p : Char → Bool) (cs : List Char) : Option (List Char × List Char) :=
  let run := cs.takeWhile p
  if run.isEmpty then none else some (run, cs.dropWhile p)

/-- `re.search`: try the pattern at each start position, leftmost match wins. -/
def searchFrom {α : Type} (matchAt : List Char → Option α) : List Char → Option α
  | [] => matchAt []
  | c :: rest =>
    match matchAt (c :: rest) with
    | some r => some r
    | none => searchFrom matchAt rest

/-- `re.search` for patterns with a `\b`-style dependence on the previous
character: the matcher also receives the character before the position. -/
def searchFromB {α : Type} (matchAt : Option Char → List Char → Option α) :
    Option Char → List Char → Option α
  | prev, [] => matchAt prev []
  | prev, c :: rest =>
    match matchAt prev (c :: rest) with
    | some r => some r
    | none => searchFromB matchAt (some c) rest

/-- Python word character (`\w` over ASCII), for `\b` boundaries. -/
def isWordChar (c : Char) : Bool := isAlnumAscii c || c = '_'

/-! ### `_extract_metadata_info`: the preamble metadata probes -/

structure MetadataInfo where
  account_number : Option String := none
  ifsc : Option String := none
  customer_id : Option String := none
  email : Option String := none
  statement_from : Option String := none
  statement_to : Option String := none
  address : Option String := none
  joint_holders : Option String := none
deriving DecidableEq, Repr

/-- `Account\s*No\s*:?\s*(\d+)` with `IGNORECASE`. -/
def matchAccountNo (cs : List Char) : Option String := do
  let r1 ← litCI "account".data cs
  let r2 ← litCI "no".data (skipWs r1)
  let r3 := skipWs (optCh (fun c => c = ':') (skipWs r2))
  let (ds, _) ← take1While isDig r3
  pure (String.mk ds)

/-- `\b[A-Z]{4}0[A-Z0-9]{6}\b` (case-sensitive). -/
def matchIfsc (prev : Option Char) (cs : List Char) : Option String :=
  if (prev.map isWordChar).getD false then none
  else
    match cs with
    | a :: b :: c :: d :: z :: rest =>
      if isUpperAscii a ∧ isUpperAscii b ∧ isUpperAscii c ∧ isUpperAscii d ∧ z = '0' then
        let run := rest.take 6
        let post := rest.drop 6
        if run.length = 6 ∧ run.all (fun ch => isUpperAscii ch || isDig ch) ∧
            !((post.head?.map isWordChar).getD false) then
          some (String.mk ([a, b, c, d, z] ++ run))
        else none
      else none
    | _ => none

/-- `Cust\s*ID\s*:?\s*(\d+)` with `IGNORECASE`. -/
def matchCustId (cs : List Char) : Option String := do
  let r1 ← litCI "cust".data cs
  let r2 ← litCI "id".data (skipWs r1)
  let r3 := skipWs (optCh (fun c => c = ':') (skipWs r2))
  let (ds, _) ← take1While isDig r3
  pure (String.mk ds)

def isEmailLocalChar (c : Char) : Bool :=
  isAlnumAscii c || c = '.' || c = '_' || c = '%' || c = '+' || c = '-'

def isEmailDomainChar (c : Char) : Bool :=
  isAlnumAscii c || c = '.' || c = '-'

/-- `[A-Za-z0-9._%+-]+@[A-Za-z0-9.-]+\.[A-Za-z]{2,}`.  The greedy `+` runs
are forced (their classes exclude the following delimiters); the only
backtracking is the split of the domain run at its last usable dot. -/
def matchEmail (cs : List Char) : Option String := do
  let (loc, r1) ← take1While isEmailLocalChar cs
  match r1 with
  | '@' :: r2 => do
    let (dom, _) ← take1While isEmailDomainChar r2
    let k ← ((List.range dom.length).reverse.filter fun k =>
      dom.get? k = some '.' ∧
      ((dom.drop (k + 1)).takeWhile isAlphaAscii).length ≥ 2 ∧ 1 ≤ k).head?
    let tail := (dom.drop (k + 1)).takeWhile isAlphaAscii
    pure (String.mk (loc ++ '@' :: (dom.take k ++ '.' :: tail)))
  | _ => none

/-- One `[0-9/]{6,10}` capture with backtracking over its length, longest
first, continuing with `k`. -/
def dateRangeToken (cs : List Char) : List (String × List Char) :=
  let run := cs.takeWhile fun c => isDig c || c = '/'
  let rest := cs.drop run.length
  ((List.range (min run.length 10 + 1)).reverse.filter (fun k => 6 ≤ k)).map fun k =>
    (String.mk (run.take k), run.drop k ++ rest)

/-- `Statement\s+From\s*:?\s*([0-9/]{6,10})\s*To\s*:?\s*([0-9/]{6,10})`,
`IGNORECASE`. -/
def matchStatementRange (cs : List Char) : Option (String × String) := do
  let r1 ← litCI "statement".data cs
  let (_, r2) ← take1While isPyWs r1
  let r3 ← litCI "from".data r2
  let r4 := skipWs (optCh (fun c => c = ':') (skipWs r3))
  ((dateRangeToken r4).findSome? fun p => do
    let r5 ← litCI "to".data (skipWs p.2)
    let r6 := skipWs (optCh (fun c => c = ':') (skipWs r5))
    match (dateRangeToken r6).head? with
    | some q => pure (p.1, q.1)
    | none => none)

/-- `Address\s*:?\s*([^,\n]+)` with `IGNORECASE`; the caller strips. -/
def matchAddress (cs : List Char) : Option String := do
  let r1 ← litCI "address".data cs
  let r2 := skipWs (optCh (fun c => c = ':') (skipWs r1))
  let (run, _) ← take1While (fun c => c ≠ ',' ∧ c ≠ '\n') r2
  pure (String.mk run)

/-- `JOINT\s+HOLDERS\s*:?\s*([^,\n]+)` with `IGNORECASE`. -/
def matchJointHolders (cs : List Char) : Option String := do
  let r1 ← litCI "joint".data cs
  let (_, r2) ← take1While isPyWs r1
  let r3 ← litCI "holders".data r2
  let r4 := skipWs (optCh (fun c => c = ':') (skipWs r3))
  let (run, _) ← take1While (fun c => c ≠ ',' ∧ c ≠ '\n') r4
  pure (String.mk run)

/-- `BankStatementParser._extract_metadata_info`: independent regex probes
over the preamble text; every probe that misses simply leaves its field
absent. -/
def extractMetadataInfo (metaStr : String) : MetadataInfo :=
  let cs := metaStr.data
  let range := searchFrom matchStatementRange cs
  { account_number := (searchFrom matchAccountNo cs)
    ifsc := searchFromB matchIfsc none cs
    customer_id := searchFrom matchCustId cs
    email := searchFrom matchEmail cs
    statement_from := range.map fun p => (parseDateString p.1).getD p.1
    statement_to := range.map fun p => (parseDateString p.2).getD p.2
    address := (searchFrom matchAddress cs).map pyStrip
    joint_holders := (searchFrom matchJointHolders cs).map pyStrip }

/-! ### The CSV transaction table (`parse_csv_statement`)

A `pandas` cell is observed by the row loop only through `pd.notna`,
`isinstance(_, str)` and `str(_)`, so it is modelled by exactly those three
observations: `na`, a string cell, or a non-string cell carrying its `str()`
rendering.  The `DataFrame` produced by the external `pandas.read_csv` call
is an oracle value: a column list plus rows of labelled cells. -/

inductive Cell where
  | na
  | str (s : String)
  | other (txt : String)
deriving DecidableEq, Repr

def Cell.notna : Cell → Bool
  | .na => false
  | _ => true

def Cell.isStr : Cell → Bool
  | .str _ => true
  | _ => false

/-- Python `str(cell)` for a non-NA cell. -/
def Cell.text : Cell → String
  | .na => ""
  | .str s => s
  | .other t => t

structure DataFrame where
  cols : List String
  rows : List (List (String × Cell))

/-- `row[col]`: first labelled cell under that column name. -/
def rowGet (row : List (String × Cell)) (col : String) : Cell :=
  ((row.find? fun p => p.1 = col).map Prod.snd).getD .na

/-- The source's `column_mappings` table, in source order. -/
def columnMappings : List (String × List String) :=
  [("date", ["Date", "Transaction Date", "Txn Date", "DATE"]),
   ("description", ["Description", "Narration", "Particulars", "DESCRIPTION"]),
   ("refId", ["Chq./Ref.No."]),
   ("debit", ["Debit", "Withdrawal", "DR", "DEBIT", "Withdrawal Amt."]),
   ("credit", ["Credit", "Deposit", "CR", "CREDIT", "Deposit Amt."]),
   ("balance", ["Balance", "Closing Balance", "BALANCE"]),
   ("account", ["Account", "Account Number", "ACC NO", "ACCOUNT"])]

/-- Bind a canonical field to the first dataframe column whose upper-cased
name is among the upper-cased aliases. -/
def mapColumn (cols : List String) (names : List String) : Option String :=
  cols.find? fun col => names.any fun n => upperStr n = upperStr col

def mappedColumns (cols : List String) (field : String) : Option String :=
  (columnMappings.find? fun p => p.1 = field).bind fun p => mapColumn cols p.2

/-- One extracted transaction row (`transaction` dict of the row loop). -/
structure Txn where
  date : Option String := none
  description : Option String := none
  debit : Option PyFloat := none
  credit : Option PyFloat := none
  balance : Option PyFloat := none
  account_number : Option String := none
deriving DecidableEq, Repr

/-- The date branch of the row loop: only string cells are passed to
`_parse_date_string`; a failed parse stores `None`, observably absent. -/
def extractDate (mapped : String → Option String) (row : List (String × Cell)) :
    Option String :=
  match mapped "date" with
  | some col =>
    match rowGet row col with
    | .str s => parseDateString s
    | _ => none
  | none => none

/-- `float(str(v).replace(',', ''))` guarded by `pd.notna`, absorbing the
`ValueError` branch. -/
def extractAmount (mapped : String → Option String) (row : List (String × Cell))
    (field : String) : Option PyFloat :=
  match mapped field with
  | some col =>
    let c := rowGet row col
    if c.notna then pyFloatOfString (stripCommas c.text) else none
  | none => none

def extractDescription (mapped : String → Option String)
    (row : List (String × Cell)) : Option String :=
  match mapped "description" with
  | some col =>
    let c := rowGet row col
    if c.notna then some (pyStrip c.text) else none
  | none => none

/-- `re.match(r'\d+', s)` succeeds exactly when `s` starts with a digit. -/
def startsWithDigit (s : String) : Bool :=
  match s.data with
  | c :: _ => isDig c
  | [] => false

/-- The account branch on one cell: `str(v).strip()` is stored verbatim
whenever `re.match(r'\d+', ...)` succeeds, i.e. whenever it starts with a
digit. -/
def accountFromCell (c : Cell) : Option String :=
  if c.notna then
    if startsWithDigit (pyStrip c.text) then some (pyStrip c.text) else none
  else none

def extractAccount (mapped : String → Option String)
    (row : List (String × Cell)) : Option String :=
  match mapped "account" with
  | some col => accountFromCell (rowGet row col)
  | none => none

def extractTransaction (mapped : String → Option String)
    (row : List (String × Cell)) : Txn :=
  { date := extractDate mapped row
    description := extractDescription mapped row
    debit := extractAmount mapped row "debit"
    credit := extractAmount mapped row "credit"
    balance := extractAmount mapped row "balance"
    account_number := extractAccount mapped row }

/-- The inclusion filter at the end of the row loop. -/
def rowIncluded (t : Txn) : Bool :=
  t.date.isSome && (t.debit.isSome || t.credit.isSome)

/-- The row loop: append each extracted transaction that passes the filter. -/
def processRows (mapped : String → Option String)
    (rows : List (List (String × Cell))) : List Txn :=
  rows.foldr (fun r acc =>
    let t := extractTransaction mapped r
    if rowIncluded t then t :: acc else acc) []

/-! ### Header localization and the full CSV parse -/

def headerKeywords : List String :=
  ["Date", "Narration", "Withdrawal", "Deposit", "Closing Balance"]

/-- Does a line contain all header-marker keywords, case-insensitively? -/
def isHeaderLine (line : String) : Bool :=
  headerKeywords.all fun kw => containsSub (lowerStr line) (lowerStr kw)

/-- Index of the first element satisfying `p` (the `enumerate` scan of the
source, which breaks at the first hit). -/
def findFirstIdx (p : String → Bool) : List String → Option Nat
  | [] => none
  | l :: ls => if p l then some 0 else (findFirstIdx p ls).map (· + 1)

/-- Index of the first header line, if any. -/
def headerIndex (lines : List String) : Option Nat :=
  findFirstIdx isHeaderLine lines

/-- The mutable parser attribute `self.metadata_info` (unset at `__init__`). -/
structure ParserState where
  metadata_info : Option MetadataInfo := none
deriving DecidableEq, Repr

/-- The external collaborators of `parse_csv_statement`: `bytes.decode`
(`none` = `UnicodeDecodeError`), `csv.Sniffer().sniff` (`none` = `csv.Error`),
and the two `pandas.read_csv` strategies (`none` = any raised exception). -/
structure CsvEnv where
  decode : List Nat → Option String
  sniff : String → Option Char
  readCsv : Char → String → Option DataFrame
  readCsvRelaxed : String → Option DataFrame

/-- Delimiter detection: `csv.Sniffer` first; on `csv.Error`, inspect the
header line (or the first line when no header was located — `lines[0]`
raises `IndexError` on an empty file, modelled as `none`). -/
def detectedDelim (env : CsvEnv) (lines : List String) (hidx : Option Nat)
    (tableStr : String) : Option Char :=
  match env.sniff tableStr with
  | some d => some d
  | none =>
    match hidx with
    | some i => some (if containsSub ((lines.get? i).getD "") "\t" then '\t' else ',')
    | none =>
      match lines.head? with
      | some l0 => some (if containsSub l0 "\t" then '\t' else ',')
      | none => none

/-- The primary `pd.read_csv` with the detected delimiter, falling back to
the relaxed comma-or-tab separator read when it raises. -/
def readTable (env : CsvEnv) (dl : Char) (tableStr : String) : Option DataFrame :=
  match env.readCsv dl tableStr with
  | some df => some df
  | none => env.readCsvRelaxed tableStr

/-- Outcome of the two read strategies: the row loop on the dataframe, or
the exception that the outer handler will turn into `[]`. -/
def tableOutcome (env : CsvEnv) (st : ParserState) (dl : Char)
    (tableStr : String) : List Txn × ParserState :=
  match readTable env dl tableStr with
  | some df => (processRows (mappedColumns df.cols) df.rows, st)
  | none => ([], st)

/-- Delimiter detection plus the two table-read strategies and the row loop;
`([], st)` models an exception reaching the method's outer handler. -/
def parseTable (env : CsvEnv) (st : ParserState) (lines : List String)
    (hidx : Option Nat) (tableStr : String) : List Txn × ParserState :=
  match detectedDelim env lines hidx tableStr with
  | none => ([], st)
  | some dl => tableOutcome env st dl tableStr

/-- The body of `parse_csv_statement` after a successful decode: header
localization, the `self.metadata_info` mutation, and the table parse. -/
def parseDecoded (env : CsvEnv) (st : ParserState) (fileStr : String) :
    List Txn × ParserState :=
  match headerIndex (pySplitlines fileStr) with
  | some i =>
    parseTable env
      { metadata_info :=
          some (extractMetadataInfo (joinLines ((pySplitlines fileStr).take i))) }
      (pySplitlines fileStr) (some i)
      (joinLines ((pySplitlines fileStr).drop i))
  | none => parseTable env st (pySplitlines fileStr) none fileStr

/-- `BankStatementParser.parse_csv_statement`.  The returned pair is the
Python return value together with the post-call instance state; the outer
`except Exception` handler maps every failure to `[]` while keeping whatever
state mutation already happened. -/
def parseCsvStatement (env : CsvEnv) (st : ParserState) (content : List Nat) :
    List Txn × ParserState :=
  match env.decode content with
  | none => ([], st)
  | some fileStr => parseDecoded env st fileStr

/-! ### Field maps and the two cleaning routines -/

/-- `data.get(field)` followed by Python truthiness. -/
def getTruthy (v : Option PyVal) : Option PyVal :=
  v.bind fun x => if x.truthy then some x else none

/-- `re.match(r'\d{4}-\d{2}-\d{2}', s)`: an unanchored-at-the-end prefix
test. -/
def isoDatePrefixMatch (s : String) : Bool :=
  match s.data with
  | a :: b :: c :: d :: s1 :: e :: f :: s2 :: g :: h :: _ =>
    isDig a && isDig b && isDig c && isDig d && s1 = '-' &&
    isDig e && isDig f && s2 = '-' && isDig g && isDig h
  | _ => false

/-- `re.match(r'^\d{2}[A-Z]{5}\d{4}[A-Z]{1}\d{1}[Z]{1}[A-Z\d]{1}$', s)` on a
stripped string: the exact 15-character GSTIN structure. -/
def gstinMatch (s : String) : Bool :=
  match s.data with
  | [d1, d2, l1, l2, l3, l4, l5, n1, n2, n3, n4, la, nb, z, x] =>
    isDig d1 && isDig d2 && isUpperAscii l1 && isUpperAscii l2 && isUpperAscii l3 &&
    isUpperAscii l4 && isUpperAscii l5 && isDig n1 && isDig n2 && isDig n3 &&
    isDig n4 && isUpperAscii la && isDig nb && z = 'Z' && (isUpperAscii x || isDig x)
  | _ => false

/-- `float(str(v).replace(',', ''))`, absorbing the `ValueError`.  For a
value that is already a float the round-trip through `str` is the
identity. -/
def cleanAmountVal : PyVal → Option PyFloat
  | .num x => some x
  | v => pyFloatOfString (stripCommas (pyStrOf v))

def cleanAmountField (v : Option PyVal) : Option PyFloat :=
  (getTruthy v).bind cleanAmountVal

def cleanStrField (v : Option PyVal) : Option String :=
  (getTruthy v).map fun x => pyStrip (pyStrOf x)

def validModes : List String :=
  ["UPI", "NEFT", "IMPS", "RTGS", "CASH", "CHEQUE", "CARD"]

/-- The raw field map delivered by the invoice model path
(`InvoiceData(...).dict()`). -/
structure InvoiceFields where
  invoice_number : Option PyVal := none
  invoice_date : Option PyVal := none
  vendor_name : Option PyVal := none
  vendor_gstin : Option PyVal := none
  taxable_value : Option PyVal := none
  gst_amount : Option PyVal := none
  invoice_total : Option PyVal := none
  payment_terms : Option PyVal := none
  invoice_currency : Option PyVal := none
  items : Option PyVal := none

/-- The dictionary `_parse_content` returns on the invoice side (both the
cleaned model output and the fallback output have this shape). -/
structure InvoiceOut where
  invoice_number : Option String := none
  invoice_date : Option String := none
  vendor_name : Option String := none
  vendor_gstin : Option String := none
  taxable_value : Option PyFloat := none
  gst_amount : Option PyFloat := none
  invoice_total : Option PyFloat := none
  payment_terms : Option String := none
  invoice_currency : Option String := none
  items : Option (List PyVal) := none

/-- `InvoiceParser._clean_invoice_data`. -/
def cleanInvoiceData (data : InvoiceFields) : InvoiceOut :=
  { invoice_number := cleanStrField data.invoice_number
    invoice_date := (getTruthy data.invoice_date).bind fun v =>
      let ds := pyStrip (pyStrOf v)
      if isoDatePrefixMatch ds then some ds else none
    vendor_name := cleanStrField data.vendor_name
    vendor_gstin := (getTruthy data.vendor_gstin).bind fun v =>
      let g := pyStrip (pyStrOf v)
      if gstinMatch g then some g else none
    taxable_value := cleanAmountField data.taxable_value
    gst_amount := cleanAmountField data.gst_amount
    invoice_total := cleanAmountField data.invoice_total
    payment_terms := cleanStrField data.payment_terms
    invoice_currency := cleanStrField data.invoice_currency
    items := (getTruthy data.items).bind fun v =>
      match v with
      | .plist xs => some xs
      | _ => none }

/-- The raw field map delivered by the statement model path
(`TransactionData(...).dict()`). -/
structure StatementFields where
  txn_date : Option PyVal := none
  description : Option PyVal := none
  debit : Option PyVal := none
  credit : Option PyVal := none
  balance : Option PyVal := none
  account_number : Option PyVal := none
  mode : Option PyVal := none
  category : Option PyVal := none
  meta_data : Option PyVal := none

/-- The dictionary `_parse_content` returns on the statement side. -/
structure StatementOut where
  txn_date : Option String := none
  description : Option String := none
  debit : Option PyFloat := none
  credit : Option PyFloat := none
  balance : Option PyFloat := none
  account_number : Option String := none
  mode : Option String := none
  category : Option String := none
  meta_data : Option (List (String × PyVal)) := none

/-- `re.sub(r'[^\d]', '', s)`: keep only digit characters. -/
def digitFilter (s : String) : String :=
  String.mk (s.data.filter isDig)

/-- `BankStatementParser._clean_statement_data`. -/
def cleanStatementData (data : StatementFields) : StatementOut :=
  { txn_date := (getTruthy data.txn_date).bind fun v =>
      let ds := pyStrip (pyStrOf v)
      if isoDatePrefixMatch ds then some ds else none
    description := cleanStrField data.description
    debit := cleanAmountField data.debit
    credit := cleanAmountField data.credit
    balance := cleanAmountField data.balance
    account_number := (getTruthy data.account_number).bind fun v =>
      let a := digitFilter (pyStrip (pyStrOf v))
      if 8 ≤ a.length then some a else none
    mode := (getTruthy data.mode).bind fun v =>
      let m := upperStr (pyStrip (pyStrOf v))
      if validModes.contains m then some m else none
    category := cleanStrField data.category
    meta_data := (getTruthy data.meta_data).bind fun v =>
      match v with
      | .pdict kvs => some kvs
      | _ => none }

/-! ### The regex fallback extractors (`_fallback_parse`) -/

/-- `[A-Z0-9\-_]` under `IGNORECASE`. -/
def identCharCI (c : Char) : Bool := isAlnumAscii c || c = '-' || c = '_'

/-- `invoice\s*#?\s*:?\s*([A-Z0-9\-_]+)` (and the `bill` variant). -/
def matchLabelledIdent (w : String) (cs : List Char) : Option String := do
  let r1 ← litCI w.data cs
  let r2 := skipWs (optCh (fun c => c = ':')
    (skipWs (optCh (fun c => c = '#') (skipWs r1))))
  let (run, _) ← take1While identCharCI r2
  pure (String.mk run)

/-- `invoice\s*number\s*:?\s*([A-Z0-9\-_]+)`. -/
def matchInvoiceNumberPat (cs : List Char) : Option String := do
  let r1 ← litCI "invoice".data cs
  let r2 ← litCI "number".data (skipWs r1)
  let r3 := skipWs (optCh (fun c => c = ':') (skipWs r2))
  let (run, _) ← take1While identCharCI r3
  pure (String.mk run)

/-- The capture `([\d,]+\.?\d*)`: digits-and-commas, an optional dot, then
digits, all greedy. -/
def amountCapture (cs : List Char) : Option String := do
  let (run, r1) ← take1While (fun c => isDig c || c = ',') cs
  match r1 with
  | '.' :: r2 => pure (String.mk (run ++ '.' :: r2.takeWhile isDig))
  | _ => pure (String.mk run)

/-- The tail `\s*:?\s*[₹$]?\s*(amount)` shared by the amount patterns. -/
def amountTail (cs : List Char) : Option String :=
  amountCapture (skipWs (optCh (fun c => c = '₹' ∨ c = '$')
    (skipWs (optCh (fun c => c = ':') (skipWs cs)))))

/-- `w\s*:?\s*[₹$]?\s*([\d,]+\.?\d*)` for a single keyword `w`. -/
def matchAmountAfter (w : String) (cs : List Char) : Option String := do
  let r1 ← litCI w.data cs
  amountTail r1

/-- `grand\s*total\s*:?\s*[₹$]?\s*([\d,]+\.?\d*)`. -/
def matchGrandTotal (cs : List Char) : Option String := do
  let r1 ← litCI "grand".data cs
  let r2 ← litCI "total".data (skipWs r1)
  amountTail r2

/-- `cgst\s*\+?\s*sgst\s*:?\s*[₹$]?\s*([\d,]+\.?\d*)`. -/
def matchCgstSgst (cs : List Char) : Option String := do
  let r1 ← litCI "cgst".data cs
  let r2 := skipWs (optCh (fun c => c = '+') (skipWs r1))
  let r3 ← litCI "sgst".data r2
  amountTail r3

/-- Run one amount pattern: a search hit whose capture fails `float` is
dropped (the `except: continue`). -/
def amountOf (matcher : List Char → Option String) (raw : String) : Option PyFloat :=
  (searchFrom matcher raw.data).bind fun cap => pyFloatOfString (stripCommas cap)

/-- First pattern in the priority list that yields a parsed amount. -/
def firstAmount (matchers : List (List Char → Option String)) (raw : String) :
    Option PyFloat :=
  matchers.findSome? fun m => amountOf m raw

/-- `InvoiceParser._fallback_parse`. -/
def invoiceFallbackParse (raw : String) : InvoiceOut :=
  { invoice_number :=
      ([matchLabelledIdent "invoice", matchInvoiceNumberPat,
        matchLabelledIdent "bill"].findSome? fun m =>
        searchFrom m raw.data).map pyStrip
    invoice_total := firstAmount
      [matchAmountAfter "total", matchAmountAfter "amount", matchGrandTotal] raw
    gst_amount := firstAmount [matchAmountAfter "gst", matchCgstSgst] raw }

/-! #### The statement-side fallback -/

/-- Candidates for `\d{1,2}`, greedy order. -/
def digits12 : List Char → List (List Char × List Char)
  | [] => []
  | [a] => if isDig a then [([a], [])] else []
  | a :: b :: rest =>
    (if isDig a ∧ isDig b then [([a, b], rest)] else []) ++
    (if isDig a then [([a], b :: rest)] else [])

/-- Candidates for `\d{2,4}`, greedy order (4, then 3, then 2). -/
def digits24 (cs : List Char) : List (List Char × List Char) :=
  let run := cs.takeWhile isDig
  ((List.range (min run.length 4 + 1)).reverse.filter fun k => 2 ≤ k).map fun k =>
    (run.take k, run.drop k ++ cs.drop run.length)

/-- The capture `\d{1,2} sep \d{1,2} sep \d{2,4}` where each `sep` is
independently a slash or a dash: first match in backtracking order. -/
def matchDatePat1 (cs : List Char) : Option String :=
  ((digits12 cs).flatMap fun p =>
    match p.2 with
    | c1 :: r2 =>
      if c1 = '/' ∨ c1 = '-' then
        (digits12 r2).flatMap fun q =>
          match q.2 with
          | c2 :: r4 =>
            if c2 = '/' ∨ c2 = '-' then
              (digits24 r4).map fun t => String.mk (p.1 ++ c1 :: q.1 ++ c2 :: t.1)
            else []
          | [] => []
      else []
    | [] => []).head?

def exactDigits (n : Nat) (cs : List Char) : Option (List Char × List Char) :=
  let run := cs.take n
  if run.length = n ∧ run.all isDig then some (run, cs.drop n) else none

/-- `(\d{4}-\d{2}-\d{2})`. -/
def matchDatePat2 (cs : List Char) : Option String := do
  let (a, r1) ← exactDigits 4 cs
  match r1 with
  | '-' :: r2 => do
    let (b, r3) ← exactDigits 2 r2
    match r3 with
    | '-' :: r4 => do
      let (c, _) ← exactDigits 2 r4
      pure (String.mk (a ++ '-' :: b ++ '-' :: c))
    | _ => none
  | _ => none

/-- `(\d{2}-\d{2}-\d{4})`. -/
def matchDatePat3 (cs : List Char) : Option String := do
  let (a, r1) ← exactDigits 2 cs
  match r1 with
  | '-' :: r2 => do
    let (b, r3) ← exactDigits 2 r2
    match r3 with
    | '-' :: r4 => do
      let (c, _) ← exactDigits 4 r4
      pure (String.mk (a ++ '-' :: b ++ '-' :: c))
    | _ => none
  | _ => none

/-- Python `s.zfill(2)` on a digit string. -/
def pyZfill2 (s : String) : String :=
  String.mk (List.replicate (2 - s.length) '0' ++ s.data)

/-- The post-processing of a matched date string in `_fallback_parse`:
slash dates are rebuilt as `YYYY-MM-DD` (two-digit years get `20` glued on),
dash dates are stored verbatim. -/
def fallbackDateFixup (dateStr : String) : Option String :=
  if containsSub dateStr "/" then
    match dateStr.splitOn "/" with
    | [p0, p1, p2] =>
      let p2 := if p2.length = 2 then "20" ++ p2 else p2
      some (p2 ++ "-" ++ pyZfill2 p1 ++ "-" ++ pyZfill2 p0)
    | _ => none
  else if containsSub dateStr "-" then some dateStr
  else none

/-- The date loop of `_fallback_parse`: patterns tried in order, the first
search hit is post-processed and the loop breaks. -/
def fallbackTxnDate (raw : String) : Option String :=
  match searchFrom matchDatePat1 raw.data with
  | some d => fallbackDateFixup d
  | none =>
    match searchFrom matchDatePat2 raw.data with
    | some d => fallbackDateFixup d
    | none =>
      match searchFrom matchDatePat3 raw.data with
      | some d => fallbackDateFixup d
      | none => none

/-- `account\s*#?\s*:?\s*(\d+)` (and the `acc` variant). -/
def matchLabelledDigits (w : String) (cs : List Char) : Option String := do
  let r1 ← litCI w.data cs
  let r2 := skipWs (optCh (fun c => c = ':')
    (skipWs (optCh (fun c => c = '#') (skipWs r1))))
  let (run, _) ← take1While isDig r2
  pure (String.mk run)

/-- `(\d{10,16})`: a digit run of at least 10, captured greedily up to 16. -/
def matchGenericAccount (cs : List Char) : Option String :=
  let run := cs.takeWhile isDig
  if 10 ≤ run.length then some (String.mk (run.take 16)) else none

/-- The account loop: first pattern with a search hit ends the loop; its
capture is kept only when at least 8 characters long. -/
def fallbackAccount (raw : String) : Option String :=
  (([matchLabelledDigits "account", matchLabelledDigits "acc",
     matchGenericAccount].findSome? fun m => searchFrom m raw.data)).bind
    fun a => if 8 ≤ a.length then some a else none

/-- `(UPI|NEFT|IMPS|RTGS|CASH|CHEQUE|CARD)` under `IGNORECASE`: alternatives
tried in order at each position; the match is upper-cased afterwards, giving
back the canonical word. -/
def matchModeWord (cs : List Char) : Option String :=
  validModes.findSome? fun w => (litCI w.data cs).map fun _ => w

/-- `payment\s*mode\s*:?\s*(UPI|...)`. -/
def matchPaymentMode (cs : List Char) : Option String := do
  let r1 ← litCI "payment".data cs
  let r2 ← litCI "mode".data (skipWs r1)
  let r3 := skipWs (optCh (fun c => c = ':') (skipWs r2))
  matchModeWord r3

def fallbackMode (raw : String) : Option String :=
  match searchFrom matchModeWord raw.data with
  | some m => some m
  | none => searchFrom matchPaymentMode raw.data

/-- The amount loop of the statement fallback: all five patterns run, later
assignments to the same field overwrite earlier ones. -/
def statementFallbackAmounts (raw : String) : Option PyFloat × Option PyFloat × Option PyFloat :=
  let d1 := amountOf (matchAmountAfter "debit") raw
  let d2 := amountOf (matchAmountAfter "withdrawal") raw
  let c1 := amountOf (matchAmountAfter "credit") raw
  let c2 := amountOf (matchAmountAfter "deposit") raw
  let b1 := amountOf (matchAmountAfter "balance") raw
  (d2.orElse fun _ => d1, (c2.orElse fun _ => c1, b1))

/-- `BankStatementParser._fallback_parse`. -/
def statementFallbackParse (raw : String) : StatementOut :=
  let amounts := statementFallbackAmounts raw
  { txn_date := fallbackTxnDate raw
    debit := amounts.1
    credit := amounts.2.1
    balance := amounts.2.2
    account_number := fallbackAccount raw
    mode := fallbackMode raw }

/-! ### `_parse_content`: primary model call with fallback -/

/-- `InvoiceParser._parse_content`: the whole primary path (prompt, model
call, schema parse, cleaning) sits in one `try`; any exception falls back to
`_fallback_parse`.  The model call is the oracle argument. -/
def invoiceParseContent (llm : Except Unit InvoiceFields) (raw : String) : InvoiceOut :=
  match llm with
  | .ok data => cleanInvoiceData data
  | .error _ => invoiceFallbackParse raw

/-- `BankStatementParser._parse_content`, same shape as the invoice side. -/
def statementParseContent (llm : Except Unit StatementFields) (raw : String) :
    StatementOut :=
  match llm with
  | .ok data => cleanStatementData data
  | .error _ => statementFallbackParse raw

/-! ## Theorems -/

/-! ### Header localization (claim C4) -/

lemma findFirstIdx_eq_some_iff (p : String → Bool) (lines : List String) (i : Nat) :
    findFirstIdx p lines = some i ↔
      ((∃ line, lines.get? i = some line ∧ p line = true) ∧
       ∀ j l, j < i → lines.get? j = some l → p l = false) := by
  induction lines generalizing i with
  | nil => simp [findFirstIdx]
  | cons l ls ih =>
    simp only [findFirstIdx]
    by_cases h : p l
    · rw [if_pos h]
      cases i with
      | zero => simp [h]
      | succ k =>
        constructor
        · intro h'
          exact absurd h' (by simp)
        · rintro ⟨-, hall⟩
          exact absurd (hall 0 l (Nat.succ_pos k) rfl) (by simp [h])
    · rw [if_neg h, Option.map_eq_some']
      cases i with
      | zero =>
        constructor
        · rintro ⟨a, -, ha⟩
          omega
        · rintro ⟨⟨line, hget, hp⟩, -⟩
          have hl : l = line := by simpa using hget
          exact absurd hp (by rw [← hl]; simpa using h)
      | succ k =>
        constructor
        · rintro ⟨a, hfind, ha⟩
          obtain ⟨⟨line, hget, hp⟩, hall⟩ := (ih a).mp hfind
          have hak : a = k := by omega
          subst hak
          refine ⟨⟨line, by simpa using hget, hp⟩, ?_⟩
          intro j l' hj hg
          cases j with
          | zero =>
            have hl : l = l' := by simpa using hg
            rw [← hl]
            simpa using h
          | succ j' => exact hall j' l' (by omega) (by simpa using hg)
        · rintro ⟨⟨line, hget, hp⟩, hall⟩
          refine ⟨k, (ih k).mpr ⟨⟨line, by simpa using hget, hp⟩, ?_⟩, rfl⟩
          intro j l' hj hg
          exact hall (j + 1) l' (by omega) (by simpa using hg)

lemma parseCsvStatement_header_some (env : CsvEnv) (st : ParserState)
    (bytes : List Nat) (fileStr : String) (i : Nat)
    (hdec : env.decode bytes = some fileStr)
    (hidx : headerIndex (pySplitlines fileStr) = some i) :
    parseCsvStatement env st bytes =
      parseTable env
        { metadata_info :=
            some (extractMetadataInfo (joinLines ((pySplitlines fileStr).take i))) }
        (pySplitlines fileStr) (some i)
        (joinLines ((pySplitlines fileStr).drop i)) := by
  unfold parseCsvStatement
  rw [hdec]
  show parseDecoded env st fileStr = _
  unfold parseDecoded
  rw [hidx]

lemma parseCsvStatement_header_none (env : CsvEnv) (st : ParserState)
    (bytes : List Nat) (fileStr : String)
    (hdec : env.decode bytes = some fileStr)
    (hidx : headerIndex (pySplitlines fileStr) = none) :
    parseCsvStatement env st bytes =
      parseTable env st (pySplitlines fileStr) none fileStr := by
  unfold parseCsvStatement
  rw [hdec]
  show parseDecoded env st fileStr = _
  unfold parseDecoded
  rw [hidx]

/-- The six-line example of the spec: five free-text preamble lines, then
the canonical HDFC header row at index 5. -/
def c4Lines : List String :=
  ["HDFC BANK Ltd.",
   "MR JOHN DOE",
   "This is a system generated statement.",
   "Nariman Point, Mumbai 400021",
   "Account Branch : MUMBAI MAIN",
   "Date,Narration,Withdrawal Amt.,Deposit Amt.,Closing Balance"]

def c4Content : String := joinLines c4Lines

/-- An environment for exercising `parse_csv_statement` on the example: the
byte decode yields the example text, the sniffer and both table reads fail. -/
def c4Env : CsvEnv :=
  { decode := fun _ => some c4Content
    sniff := fun _ => none
    readCsv := fun _ _ => none
    readCsvRelaxed := fun _ => none }

/-- Claim C4: the header index is the index of the first line whose
lower-cased text contains all five header-marker keywords as substrings;
when it exists, `parse_csv_statement` continues on the table text formed
from the lines at the header index onward (everything before it becomes the
metadata preamble), and when no line qualifies the entire file is the table.
On the concrete six-line example the header index is 5, excluding lines
0–4. -/
theorem header_localization :
    (∀ lines i, headerIndex lines = some i ↔
        ((∃ line, lines.get? i = some line ∧ isHeaderLine line = true) ∧
         ∀ j l, j < i → lines.get? j = some l → isHeaderLine l = false)) ∧
    (∀ line, isHeaderLine line =
        headerKeywords.all fun kw => containsSub (lowerStr line) (lowerStr kw)) ∧
    (∀ env st bytes fileStr i, env.decode bytes = some fileStr →
        headerIndex (pySplitlines fileStr) = some i →
        parseCsvStatement env st bytes =
          parseTable env
            { metadata_info :=
                some (extractMetadataInfo (joinLines ((pySplitlines fileStr).take i))) }
            (pySplitlines fileStr) (some i)
            (joinLines ((pySplitlines fileStr).drop i))) ∧
    (∀ env st bytes fileStr, env.decode bytes = some fileStr →
        headerIndex (pySplitlines fileStr) = none →
        parseCsvStatement env st bytes =
          parseTable env st (pySplitlines fileStr) none fileStr) ∧
    headerIndex c4Lines = some 5 := by
  exact ⟨fun lines i => findFirstIdx_eq_some_iff isHeaderLine lines i,
    fun line => rfl, parseCsvStatement_header_some, parseCsvStatement_header_none,
    by decide⟩

/-- Witness: the third and fifth conjuncts of `header_localization` applied
to the concrete example environment. -/
theorem header_localization_witness :
    parseCsvStatement c4Env { metadata_info := none } [] =
      parseTable c4Env
        { metadata_info :=
            some (extractMetadataInfo (joinLines ((pySplitlines c4Content).take 5))) }
        (pySplitlines c4Content) (some 5)
        (joinLines ((pySplitlines c4Content).drop 5)) :=
  header_localization.2.2.1 c4Env { metadata_info := none } [] c4Content 5 rfl
    (by decide)

/-! ### Row inclusion (claim C1) -/

lemma processRows_eq_filter (mapped : String → Option String)
    (rows : List (List (String × Cell))) :
    processRows mapped rows =
      (rows.map (extractTransaction mapped)).filter rowIncluded := by
  induction rows with
  | nil => rfl
  | cons r rs ih =>
    simp only [processRows, List.foldr_cons, List.map_cons, List.filter_cons] at *
    by_cases h : rowIncluded (extractTransaction mapped r) <;> simp [h, ih]

/-- Columns of the concrete example table. -/
def c1Cols : List String :=
  ["Date", "Narration", "Chq./Ref.No.", "Withdrawal Amt.", "Deposit Amt.",
   "Closing Balance"]

/-- A header repeat, a credited transaction, a dated row with no amounts,
and a blank row. -/
def c1Rows : List (List (String × Cell)) :=
  [[("Date", .str "Date"), ("Narration", .str "Narration"),
    ("Withdrawal Amt.", .str "Withdrawal Amt."),
    ("Deposit Amt.", .str "Deposit Amt."),
    ("Closing Balance", .str "Closing Balance")],
   [("Date", .str "01/02/2023"), ("Narration", .str "UPI-JOHN"),
    ("Withdrawal Amt.", .na), ("Deposit Amt.", .str "500.00"),
    ("Closing Balance", .str "10,500.00")],
   [("Date", .str "02/02/2023"), ("Narration", .str "Opening Balance"),
    ("Withdrawal Amt.", .na), ("Deposit Amt.", .na),
    ("Closing Balance", .str "10,500.00")],
   [("Date", .na), ("Narration", .na), ("Withdrawal Amt.", .na),
    ("Deposit Amt.", .na), ("Closing Balance", .na)]]

/-- The single transaction the example table yields. -/
def c1GoodTxn : Txn :=
  { date := some "2023-02-01"
    description := some "UPI-JOHN"
    credit := some (.ofDec false 500 0)
    balance := some (.ofDec false 10500 0) }

/-- Claim C1: a parsed row enters the output sequence exactly when its date
parsed successfully and at least one of debit/credit parsed as a number; on
the concrete table the header repeat, the amount-less dated row and the
blank row are all dropped while the dated row with a non-zero credit is
kept. -/
theorem row_inclusion_iff :
    (∀ mapped rows, processRows mapped rows =
        (rows.map (extractTransaction mapped)).filter rowIncluded) ∧
    (∀ t : Txn, rowIncluded t = (t.date.isSome && (t.debit.isSome || t.credit.isSome))) ∧
    processRows (mappedColumns c1Cols) c1Rows = [c1GoodTxn] :=
  ⟨processRows_eq_filter, fun _ => rfl, by decide⟩

/-! ### Total CSV parse, empty list on failure (claim C2) -/

/-- The table text `parse_csv_statement` hands to the delimiter logic. -/
def tableTextOf (fileStr : String) : String :=
  match headerIndex (pySplitlines fileStr) with
  | some i => joinLines ((pySplitlines fileStr).drop i)
  | none => fileStr

lemma parseTable_fst_empty_of_reads_fail (env : CsvEnv) (st : ParserState)
    (lines : List String) (hidx : Option Nat) (tableStr : String)
    (hread : ∀ dl, env.readCsv dl tableStr = none)
    (hrelax : env.readCsvRelaxed tableStr = none) :
    (parseTable env st lines hidx tableStr).1 = [] := by
  unfold parseTable
  cases detectedDelim env lines hidx tableStr with
  | none => rfl
  | some dl =>
    show (tableOutcome env st dl tableStr).1 = []
    have hrt : readTable env dl tableStr = none := by
      unfold readTable
      rw [hread dl]
      exact hrelax
    unfold tableOutcome
    rw [hrt]

/-- Claim C2: for every byte input and every behaviour of the external
decode/sniff/read collaborators, `parse_csv_statement` returns a plain list
(the definition is total: every failure point feeds the outer handler), and
whenever the input cannot be decoded, no delimiter can be determined, or
both delimiter strategies fail to produce a table, that list is empty. -/
theorem parse_csv_statement_total_empty_on_failure :
    ∀ env st bytes,
      (env.decode bytes = none → (parseCsvStatement env st bytes).1 = []) ∧
      (∀ fileStr, env.decode bytes = some fileStr →
        (detectedDelim env (pySplitlines fileStr) (headerIndex (pySplitlines fileStr))
            (tableTextOf fileStr) = none →
          (parseCsvStatement env st bytes).1 = []) ∧
        ((∀ dl, env.readCsv dl (tableTextOf fileStr) = none) →
          env.readCsvRelaxed (tableTextOf fileStr) = none →
          (parseCsvStatement env st bytes).1 = [])) := by
  intro env st bytes
  refine ⟨fun hdec => by simp [parseCsvStatement, hdec], ?_⟩
  intro fileStr hdec
  constructor
  · intro hdelim
    cases hidx : headerIndex (pySplitlines fileStr) with
    | none =>
      rw [parseCsvStatement_header_none env st bytes fileStr hdec hidx]
      have ht : tableTextOf fileStr = fileStr := by unfold tableTextOf; rw [hidx]
      rw [ht, hidx] at hdelim
      unfold parseTable
      rw [hdelim]
    | some i =>
      rw [parseCsvStatement_header_some env st bytes fileStr i hdec hidx]
      have ht : tableTextOf fileStr = joinLines ((pySplitlines fileStr).drop i) := by
        unfold tableTextOf; rw [hidx]
      rw [ht, hidx] at hdelim
      unfold parseTable
      rw [hdelim]
  · intro hread hrelax
    cases hidx : headerIndex (pySplitlines fileStr) with
    | none =>
      rw [parseCsvStatement_header_none env st bytes fileStr hdec hidx]
      have ht : tableTextOf fileStr = fileStr := by unfold tableTextOf; rw [hidx]
      rw [ht] at hread hrelax
      exact parseTable_fst_empty_of_reads_fail env st _ none fileStr hread hrelax
    | some i =>
      rw [parseCsvStatement_header_some env st bytes fileStr i hdec hidx]
      have ht : tableTextOf fileStr = joinLines ((pySplitlines fileStr).drop i) := by
        unfold tableTextOf; rw [hidx]
      rw [ht] at hread hrelax
      exact parseTable_fst_empty_of_reads_fail env _ _ (some i) _ hread hrelax

/-- An environment whose table reads always fail. -/
def c2Env : CsvEnv :=
  { decode := fun _ => some "no table here"
    sniff := fun _ => none
    readCsv := fun _ _ => none
    readCsvRelaxed := fun _ => none }

/-- Witness: with both read strategies failing on the decoded text, the
parse returns the empty list. -/
theorem parse_csv_statement_total_empty_on_failure_witness :
    (parseCsvStatement c2Env { metadata_info := none } [1, 2, 3]).1 = [] :=
  ((parse_csv_statement_total_empty_on_failure c2Env { metadata_info := none }
    [1, 2, 3]).2 "no table here" rfl).2 (fun _ => rfl) rfl

/-! ### GSTIN validation (claim C7) -/

lemma gstinMatch_empty : gstinMatch "" = false := rfl

lemma cleanInvoiceData_vendor_gstin (fm : InvoiceFields) :
    (cleanInvoiceData fm).vendor_gstin =
      (getTruthy fm.vendor_gstin).bind fun v =>
        if gstinMatch (pyStrip (pyStrOf v)) then some (pyStrip (pyStrOf v)) else none :=
  rfl

/-- Claim C7: the field normalizer keeps `vendor_gstin` exactly when the
(whitespace-trimmed) string matches the fixed 15-character structure
2 digits, 5 letters, 4 digits, 1 letter, 1 digit, literal `Z`,
1 alphanumeric; any other string is dropped, and the conforming example
`29ABCDE1234F1Z5` is always retained.  (The second conjunct records the
general rule for arbitrary field maps.) -/
theorem gstin_retention_iff :
    (∀ s t : String,
      (cleanInvoiceData { vendor_gstin := some (.str s) }).vendor_gstin = some t ↔
        (t = pyStrip s ∧ gstinMatch (pyStrip s) = true)) ∧
    (∀ fm : InvoiceFields, (cleanInvoiceData fm).vendor_gstin =
        (getTruthy fm.vendor_gstin).bind fun v =>
          if gstinMatch (pyStrip (pyStrOf v)) then some (pyStrip (pyStrOf v)) else none) ∧
    (cleanInvoiceData { vendor_gstin := some (.str "29ABCDE1234F1Z5") }).vendor_gstin =
      some "29ABCDE1234F1Z5" ∧
    (cleanInvoiceData { vendor_gstin := some (.str "29ABCDE1234F1Z") }).vendor_gstin =
      none ∧
    (cleanInvoiceData { vendor_gstin := some (.str "29abcde1234f1z5") }).vendor_gstin =
      none := by
  refine ⟨?_, fun fm => rfl, by decide, by decide, by decide⟩
  intro s t
  rw [cleanInvoiceData_vendor_gstin]
  show ((getTruthy (some (.str s))).bind _) = some t ↔ _
  by_cases he : s.isEmpty
  · have hs : s = "" := by
      cases s with
      | mk data =>
        cases data with
        | nil => rfl
        | cons c cs =>
          exfalso
          rw [String.isEmpty_iff] at he
          exact absurd (congrArg String.data he) (by simp)
    subst hs
    rw [show getTruthy (some (PyVal.str "")) = none from rfl]
    simp [gstinMatch_empty, show pyStrip "" = "" from rfl]
  · rw [Bool.not_eq_true] at he
    rw [show getTruthy (some (PyVal.str s)) = some (PyVal.str s) from by
      simp [getTruthy, PyVal.truthy, he]]
    simp only [Option.some_bind]
    rw [show pyStrOf (PyVal.str s) = s from rfl]
    by_cases hm : gstinMatch (pyStrip s)
    · rw [if_pos hm]
      constructor
      · intro h
        exact ⟨(Option.some.inj h).symm, hm⟩
      · rintro ⟨rfl, -⟩
        rfl
    · rw [if_neg hm]
      constructor
      · intro h
        cases h
      · rintro ⟨-, hc⟩
        exact absurd hc hm

/-! ### Fallback on model failure (claim C3) -/

/-- The fallback field map of a small concrete invoice text. -/
def c3InvoiceOut : InvoiceOut :=
  { invoice_number := some "INV-001"
    invoice_total := some (.ofDec false 12345 (-1)) }

/-- Claim C3: whenever the model-based extraction errors out (the oracle
returns `error`, covering any exception kind), `_parse_content` of the
invoice parser and of the statement parser returns exactly the field map of
its regex fallback; in every case the result is one of the two total
branches, so the orchestrator itself never raises.  The final conjunct
evaluates the invoice fallback on a concrete text. -/
theorem parse_content_falls_back :
    (∀ raw e, invoiceParseContent (.error e) raw = invoiceFallbackParse raw) ∧
    (∀ raw e, statementParseContent (.error e) raw = statementFallbackParse raw) ∧
    (∀ raw llm, invoiceParseContent llm raw = invoiceFallbackParse raw ∨
      ∃ data, llm = .ok data ∧ invoiceParseContent llm raw = cleanInvoiceData data) ∧
    (∀ raw llm, statementParseContent llm raw = statementFallbackParse raw ∨
      ∃ data, llm = .ok data ∧ statementParseContent llm raw = cleanStatementData data) ∧
    invoiceParseContent (.error ()) "Invoice #: INV-001 Total: 1,234.50" =
      c3InvoiceOut := by
  refine ⟨fun raw e => rfl, fun raw e => rfl, ?_, ?_, rfl⟩
  · intro raw llm
    cases llm with
    | error e => exact Or.inl rfl
    | ok data => exact Or.inr ⟨data, rfl, rfl⟩
  · intro raw llm
    cases llm with
    | error e => exact Or.inl rfl
    | ok data => exact Or.inr ⟨data, rfl, rfl⟩

/-! ### Monetary field retention (claims C6) -/

lemma cleanStatementData_amounts (fm : StatementFields) :
    (cleanStatementData fm).debit = cleanAmountField fm.debit ∧
    (cleanStatementData fm).credit = cleanAmountField fm.credit ∧
    (cleanStatementData fm).balance = cleanAmountField fm.balance :=
  ⟨rfl, rfl, rfl⟩

lemma cleanInvoiceData_amounts (fm : InvoiceFields) :
    (cleanInvoiceData fm).taxable_value = cleanAmountField fm.taxable_value ∧
    (cleanInvoiceData fm).gst_amount = cleanAmountField fm.gst_amount ∧
    (cleanInvoiceData fm).invoice_total = cleanAmountField fm.invoice_total :=
  ⟨rfl, rfl, rfl⟩

/-- Claim C6 counterexample: the numeric value `0.0` in `debit` is a number
(its coercion succeeds, last two conjuncts) yet `_clean_statement_data`
drops the field, because the `if data.get(field):` truthiness gate rejects
zero before the numeric parse ever runs.  So "retained iff numeric" fails:
a field can be dropped while perfectly numeric. -/
theorem amount_zero_dropped_counterexample :
    (cleanStatementData { debit := some (.num (.ofDec false 0 0)) }).debit = none ∧
    cleanAmountVal (.num (.ofDec false 0 0)) = some (.ofDec false 0 0) ∧
    pyFloatOfString "0.00" = some (.ofDec false 0 0) :=
  ⟨rfl, rfl, by decide⟩

/-- Claim C6 (amended): a monetary amount field (debit, credit, balance,
taxable_value, gst_amount, invoice_total) is retained in the cleaned record
iff its value is truthy (present and neither zero nor an empty string) and
parses as a decimal after comma-stripping; dropping is silent and total.
The string coercion is exactly `float` after removing commas, and an
already-numeric value passes through unchanged. -/
theorem amount_retention_truthy_numeric :
    (∀ (v : Option PyVal) (x : PyFloat),
      cleanAmountField v = some x ↔
        ∃ w, v = some w ∧ w.truthy = true ∧ cleanAmountVal w = some x) ∧
    (∀ s : String, cleanAmountVal (.str s) = pyFloatOfString (stripCommas s)) ∧
    (∀ x : PyFloat, cleanAmountVal (.num x) = some x) ∧
    (∀ fm : StatementFields,
      (cleanStatementData fm).debit = cleanAmountField fm.debit ∧
      (cleanStatementData fm).credit = cleanAmountField fm.credit ∧
      (cleanStatementData fm).balance = cleanAmountField fm.balance) ∧
    (∀ fm : InvoiceFields,
      (cleanInvoiceData fm).taxable_value = cleanAmountField fm.taxable_value ∧
      (cleanInvoiceData fm).gst_amount = cleanAmountField fm.gst_amount ∧
      (cleanInvoiceData fm).invoice_total = cleanAmountField fm.invoice_total) := by
  refine ⟨?_, fun s => rfl, fun x => rfl, cleanStatementData_amounts,
    cleanInvoiceData_amounts⟩
  intro v x
  cases v with
  | none => simp [cleanAmountField, getTruthy]
  | some w =>
    by_cases ht : w.truthy <;>
      simp [cleanAmountField, getTruthy, ht]

/-! ### Account coercion in row extraction (claims C9) -/

def c9Cols : List String := ["Date", "Account", "Debit"]

def c9Row : List (String × Cell) :=
  [("Date", .str "01/02/2023"), ("Account", .str " 1234-5678 "),
   ("Debit", .str "100")]

/-- Claim C9 counterexample: with the account column mapped and the cell
` 1234-5678 `, the row extractor stores the whitespace-stripped string
verbatim — dashes included — because `re.match(r'\d+', ...)` only tests for
a leading digit; no digit filtering happens at this stage, so the stored
value differs from the digit-filtered string the claim prescribes. -/
theorem account_extraction_not_filtered_counterexample :
    (extractTransaction (mappedColumns c9Cols) c9Row).account_number =
      some "1234-5678" ∧
    digitFilter "1234-5678" = "12345678" ∧
    ("1234-5678" : String) ≠ "12345678" :=
  ⟨rfl, rfl, by decide⟩

/-- Claim C9 (amended): the row extractor whitespace-strips the account
cell's text and stores it verbatim exactly when the stripped string begins
with a digit; the digit filter with its length-floor lives only in
`_clean_statement_data` on the model path, where `A/C: 1234-5678-90`
indeed becomes `1234567890`. -/
theorem account_row_extraction_verbatim :
    (∀ mapped row t, extractAccount mapped row = some t ↔
      ∃ col, mapped "account" = some col ∧ (rowGet row col).notna = true ∧
        t = pyStrip (rowGet row col).text ∧
        startsWithDigit (pyStrip (rowGet row col).text) = true) ∧
    (∀ mapped row,
      (extractTransaction mapped row).account_number = extractAccount mapped row) ∧
    (∀ fm : StatementFields, (cleanStatementData fm).account_number =
      (getTruthy fm.account_number).bind fun v =>
        if 8 ≤ (digitFilter (pyStrip (pyStrOf v))).length then
          some (digitFilter (pyStrip (pyStrOf v))) else none) ∧
    (cleanStatementData
        { account_number := some (.str "A/C: 1234-5678-90") }).account_number =
      some "1234567890" := by
  refine ⟨?_, fun mapped row => rfl, fun fm => rfl, by decide⟩
  intro mapped row t
  unfold extractAccount
  cases mapped "account" with
  | none => simp
  | some col =>
    show accountFromCell (rowGet row col) = some t ↔ _
    unfold accountFromCell
    by_cases hn : (rowGet row col).notna
    · rw [if_pos hn]
      by_cases hd : startsWithDigit (pyStrip (rowGet row col).text)
      · rw [if_pos hd]
        constructor
        · intro h
          exact ⟨col, rfl, hn, (Option.some.inj h).symm, hd⟩
        · rintro ⟨col', hc, -, rfl, -⟩
          cases Option.some.inj hc
          rfl
      · rw [if_neg hd]
        constructor
        · intro h
          cases h
        · rintro ⟨col', hc, -, -, hd'⟩
          cases Option.some.inj hc
          exact absurd hd' hd
    · rw [if_neg hn]
      constructor
      · intro h
        cases h
      · rintro ⟨col', hc, hn', -, -⟩
        cases Option.some.inj hc
        exact absurd hn' hn

/-! ### Cross-call state (claim C10) -/

lemma parseTable_snd (env : CsvEnv) (st : ParserState) (lines : List String)
    (hidx : Option Nat) (tbl : String) :
    (parseTable env st lines hidx tbl).2 = st := by
  unfold parseTable
  cases detectedDelim env lines hidx tbl with
  | none => rfl
  | some dl =>
    show (tableOutcome env st dl tbl).2 = st
    unfold tableOutcome
    cases readTable env dl tbl with
    | some df => rfl
    | none => rfl

lemma parseTable_fst_indep (env : CsvEnv) (st st' : ParserState)
    (lines : List String) (hidx : Option Nat) (tbl : String) :
    (parseTable env st lines hidx tbl).1 = (parseTable env st' lines hidx tbl).1 := by
  unfold parseTable
  cases detectedDelim env lines hidx tbl with
  | none => rfl
  | some dl =>
    show (tableOutcome env st dl tbl).1 = (tableOutcome env st' dl tbl).1
    unfold tableOutcome
    cases readTable env dl tbl with
    | some df => rfl
    | none => rfl

def c10Content1 : String :=
  "Account No : 12345678\nDate,Narration,Withdrawal Amt.,Deposit Amt.,Closing Balance"

def c10Content2 : String := "hello world"

/-- Two successive invocations on the same parser: the first input carries a
metadata preamble, the second none at all. -/
def c10Env : CsvEnv :=
  { decode := fun bs => if bs = [1] then some c10Content1 else some c10Content2
    sniff := fun _ => none
    readCsv := fun _ _ => none
    readCsvRelaxed := fun _ => none }

/-- Claim C10 counterexample: state created by the first invocation survives
into the second.  After parsing the preamble-bearing input and then the
preamble-free input, the instance attribute still holds the first call's
metadata, although the second input (no header line) could never have
produced it. -/
theorem state_survives_across_calls_counterexample :
    (parseCsvStatement c10Env
        (parseCsvStatement c10Env { metadata_info := none } [1]).2 [2]).2.metadata_info =
      some { account_number := some "12345678" } ∧
    headerIndex (pySplitlines c10Content2) = none := by
  decide

/-- Claim C10 (amended): the returned transaction sequence is computed fresh
on each invocation — it never depends on the parser state a previous call
left behind — but `metadata_info` is genuine cross-call state: a call whose
input has no header line returns with the state unchanged, so metadata from
an earlier call persists. -/
theorem returned_list_state_independent :
    (∀ env st st' bytes,
      (parseCsvStatement env st bytes).1 = (parseCsvStatement env st' bytes).1) ∧
    (∀ env st bytes fileStr, env.decode bytes = some fileStr →
      headerIndex (pySplitlines fileStr) = none →
      (parseCsvStatement env st bytes).2 = st) := by
  constructor
  · intro env st st' bytes
    unfold parseCsvStatement
    cases env.decode bytes with
    | none => rfl
    | some fileStr =>
      show (parseDecoded env st fileStr).1 = (parseDecoded env st' fileStr).1
      unfold parseDecoded
      cases headerIndex (pySplitlines fileStr) with
      | some i => rfl
      | none => exact parseTable_fst_indep env st st' (pySplitlines fileStr) none fileStr
  · intro env st bytes fileStr hdec hidx
    rw [parseCsvStatement_header_none env st bytes fileStr hdec hidx, parseTable_snd]

/-- Witness: the no-header second input of the example leaves any incoming
state untouched. -/
theorem returned_list_state_independent_witness :
    (parseCsvStatement c10Env
        { metadata_info := some { account_number := some "12345678" } } [2]).2 =
      { metadata_info := some { account_number := some "12345678" } } :=
  returned_list_state_independent.2 c10Env
    { metadata_info := some { account_number := some "12345678" } } [2]
    c10Content2 rfl (by decide)

/-! ### Metadata delivery (claim C8) -/

def c8Content : String :=
  "Account No : 12345678\nDate,Narration,Withdrawal Amt.,Deposit Amt.,Closing Balance\n01/02/2023,UPI-JOHN,,500.00,10500.00"

/-- The dataframe the table read yields for the example. -/
def c8Df : DataFrame :=
  { cols := ["Date", "Narration", "Withdrawal Amt.", "Deposit Amt.",
             "Closing Balance"]
    rows := [[("Date", .str "01/02/2023"), ("Narration", .str "UPI-JOHN"),
              ("Withdrawal Amt.", .na), ("Deposit Amt.", .str "500.00"),
              ("Closing Balance", .str "10500.00")]] }

def c8Txn : Txn :=
  { date := some "2023-02-01"
    description := some "UPI-JOHN"
    credit := some (.ofDec false 500 0)
    balance := some (.ofDec false 10500 0) }

def c8Env : CsvEnv :=
  { decode := fun _ => some c8Content
    sniff := fun _ => some ','
    readCsv := fun _ _ => some c8Df
    readCsvRelaxed := fun _ => none }

/-- Claim C8 counterexample: on an input whose preamble yields nonempty
metadata, what `parse_csv_statement` returns to its caller is the bare
transaction list — a list whose single element carries no account number and
no other preamble datum.  The extracted `StatementMetadata` is not part of
the return value; it exists only as the mutated instance attribute
(second conjunct), which the repository's own callers never read. -/
theorem metadata_not_in_return_value_counterexample :
    (parseCsvStatement c8Env { metadata_info := none } []).1 = [c8Txn] ∧
    c8Txn.account_number = none ∧
    (parseCsvStatement c8Env { metadata_info := none } []).2.metadata_info =
      some { account_number := some "12345678" } := by
  decide

/-- Claim C8 (amended): the preamble metadata is extracted once per parse
and kept separate from the transactions — the returned list is computed
purely from the table rows, never enriched with metadata — but it is
delivered through the parser attribute `metadata_info` rather than returned
alongside the list. -/
theorem metadata_separate_in_attribute :
    (∀ env st bytes fileStr i, env.decode bytes = some fileStr →
      headerIndex (pySplitlines fileStr) = some i →
      (parseCsvStatement env st bytes).2.metadata_info =
        some (extractMetadataInfo (joinLines ((pySplitlines fileStr).take i)))) ∧
    (∀ env st lines hidx tbl dl df,
      detectedDelim env lines hidx tbl = some dl →
      env.readCsv dl tbl = some df →
      (parseTable env st lines hidx tbl).1 =
        processRows (mappedColumns df.cols) df.rows) := by
  constructor
  · intro env st bytes fileStr i hdec hidx
    rw [parseCsvStatement_header_some env st bytes fileStr i hdec hidx, parseTable_snd]
  · intro env st lines hidx tbl dl df hdelim hread
    unfold parseTable
    rw [hdelim]
    show (tableOutcome env st dl tbl).1 = _
    have hrt : readTable env dl tbl = some df := by
      unfold readTable
      rw [hread]
    unfold tableOutcome
    rw [hrt]

/-- Witness: the example input's metadata lands in the attribute. -/
theorem metadata_separate_in_attribute_witness :
    (parseCsvStatement c8Env { metadata_info := none } []).2.metadata_info =
      some (extractMetadataInfo (joinLines ((pySplitlines c8Content).take 1))) :=
  metadata_separate_in_attribute.1 c8Env { metadata_info := none } [] c8Content 1
    rfl (by decide)

/-! ### The date normalizer (claim C5) -/

/-- Zero-padded rendering of a date in `%d/%m/%Y`. -/
def renderDMYSlash (y m d : Nat) : String :=
  String.mk (pad2 d ++ '/' :: (pad2 m ++ '/' :: pad4 y))

/-- Zero-padded rendering of a date in `%d-%m-%Y`. -/
def renderDMYDash (y m d : Nat) : String :=
  String.mk (pad2 d ++ '-' :: (pad2 m ++ '-' :: pad4 y))

/-- Zero-padded rendering of a date in `%Y-%m-%d`. -/
def renderISO (y m d : Nat) : String :=
  String.mk (pad4 y ++ '-' :: (pad2 m ++ '-' :: pad2 d))

/-- Zero-padded rendering of a date in `%d/%m/%y` (two-digit year). -/
def renderDMY2Slash (y m d : Nat) : String :=
  String.mk (pad2 d ++ '/' :: (pad2 m ++ '/' :: pad2 (y % 100)))

/-- Zero-padded rendering of a date in `%d-%m-%y` (two-digit year). -/
def renderDMY2Dash (y m d : Nat) : String :=
  String.mk (pad2 d ++ '-' :: (pad2 m ++ '-' :: pad2 (y % 100)))

lemma dayAlts_pad2 (d : Nat) (h1 : 1 ≤ d) (h2 : d ≤ 31) (rest : List Char) :
    dayAlts (pad2 d ++ rest) =
      (d, rest) :: (if 10 ≤ d then [(d / 10, digitChar (d % 10) :: rest)] else []) := by
  interval_cases d <;> rfl

lemma monthAlts_pad2 (m : Nat) (h1 : 1 ≤ m) (h2 : m ≤ 12) (rest : List Char) :
    monthAlts (pad2 m ++ rest) =
      (m, rest) :: (if 10 ≤ m then [(1, digitChar (m % 10) :: rest)] else []) := by
  interval_cases m <;> rfl

lemma isDig_digitChar (n : Nat) (h : n ≤ 9) : isDig (digitChar n) = true := by
  interval_cases n <;> rfl

lemma dval_digitChar (n : Nat) (h : n ≤ 9) : dval (digitChar n) = n := by
  interval_cases n <;> rfl

lemma digitChar_ne_slash (n : Nat) (h : n ≤ 9) : digitChar n ≠ '/' := by
  interval_cases n <;> decide

lemma digitChar_ne_dash (n : Nat) (h : n ≤ 9) : digitChar n ≠ '-' := by
  interval_cases n <;> decide

lemma yearFour_pad4 (y : Nat) (h : y ≤ 9999) (rest : List Char) :
    yearFour (pad4 y ++ rest) = some (y, rest) := by
  have ha : y / 1000 % 10 ≤ 9 := Nat.le_of_lt_succ (Nat.mod_lt _ (by norm_num))
  have hb : y / 100 % 10 ≤ 9 := Nat.le_of_lt_succ (Nat.mod_lt _ (by norm_num))
  have hc : y / 10 % 10 ≤ 9 := Nat.le_of_lt_succ (Nat.mod_lt _ (by norm_num))
  have hd : y % 10 ≤ 9 := Nat.le_of_lt_succ (Nat.mod_lt _ (by norm_num))
  show yearFour (digitChar (y / 1000 % 10) :: digitChar (y / 100 % 10) ::
    digitChar (y / 10 % 10) :: digitChar (y % 10) :: rest) = some (y, rest)
  simp only [yearFour, isDig_digitChar _ ha, isDig_digitChar _ hb,
    isDig_digitChar _ hc, isDig_digitChar _ hd, dval_digitChar _ ha,
    dval_digitChar _ hb, dval_digitChar _ hc, dval_digitChar _ hd,
    and_self, if_true]
  refine congrArg (fun n => some (n, rest)) ?_
  omega

lemma yearTwo_pad2 (v : Nat) (h : v ≤ 99) (rest : List Char) :
    yearTwo (pad2 v ++ rest) =
      some (if v < 69 then 2000 + v else 1900 + v, rest) := by
  interval_cases v <;> rfl

lemma runToks_lit_ne (sep : Char) (ts : List DTok) (st : DParts) (c : Char)
    (rest : List Char) (h : c ≠ sep) :
    runToks (.lit sep :: ts) st (c :: rest) = [] := by
  simp only [runToks]
  rw [if_neg h]

lemma runToks_lit_eq (sep : Char) (ts : List DTok) (st : DParts)
    (rest : List Char) :
    runToks (.lit sep :: ts) st (sep :: rest) = runToks ts st rest := by
  simp only [runToks]
  exact if_pos trivial

/-- A `%d` followed by a literal separator dies entirely when both the
second and third input characters differ from the separator: every
alternative of `%d` consumes one or two characters and then meets a
non-separator. -/
lemma runToks_day_lit_digits (ts : List DTok) (st : DParts) (sep c1 c2 c3 : Char)
    (rest : List Char) (h2 : c2 ≠ sep) (h3 : c3 ≠ sep) :
    runToks (.day :: .lit sep :: ts) st (c1 :: c2 :: c3 :: rest) = [] := by
  show (dayAlts (c1 :: c2 :: c3 :: rest)).flatMap _ = []
  simp only [dayAlts]
  split_ifs <;>
    simp [runToks_lit_ne _ _ _ _ _ h2, runToks_lit_ne _ _ _ _ _ h3]

/-- The day-first prefix `%d sep %m sep` consumes the padded rendering
deterministically: the backtracking alternatives all die at the separator
literals. -/
lemma runToks_dayfirst (ts : List DTok) (st : DParts) (sep : Char) (d m : Nat)
    (tail : List Char) (hd1 : 1 ≤ d) (hd2 : d ≤ 31) (hm1 : 1 ≤ m) (hm2 : m ≤ 12)
    (hs : ∀ n, n ≤ 9 → digitChar n ≠ sep) :
    runToks (.day :: .lit sep :: .month :: .lit sep :: ts) st
      (pad2 d ++ sep :: (pad2 m ++ sep :: tail)) =
      runToks ts { st with d := d, m := m } tail := by
  have hdm : d % 10 ≤ 9 := Nat.le_of_lt_succ (Nat.mod_lt _ (by norm_num))
  have hmm : m % 10 ≤ 9 := Nat.le_of_lt_succ (Nat.mod_lt _ (by norm_num))
  show (dayAlts _).flatMap _ = _
  rw [dayAlts_pad2 d hd1 hd2, List.flatMap_cons]
  have hextra :
      (if 10 ≤ d then [(d / 10, digitChar (d % 10) :: (sep :: (pad2 m ++ sep :: tail)))]
        else []).flatMap
        (fun p => runToks (.lit sep :: .month :: .lit sep :: ts)
          { st with d := p.1 } p.2) = [] := by
    split_ifs <;> simp [runToks_lit_ne _ _ _ _ _ (hs _ hdm)]
  rw [hextra, List.append_nil]
  show runToks (.lit sep :: .month :: .lit sep :: ts) { st with d := d }
    (sep :: (pad2 m ++ sep :: tail)) = _
  rw [runToks_lit_eq]
  show (monthAlts _).flatMap _ = _
  rw [monthAlts_pad2 m hm1 hm2, List.flatMap_cons]
  have hextraM :
      (if 10 ≤ m then [(1, digitChar (m % 10) :: (sep :: tail))] else []).flatMap
        (fun p => runToks (.lit sep :: ts)
          { st with d := d, m := p.1 } p.2) = [] := by
    split_ifs <;> simp [runToks_lit_ne _ _ _ _ _ (hs _ hmm)]
  rw [hextraM, List.append_nil]
  show runToks (.lit sep :: ts) { st with d := d, m := m } (sep :: tail) = _
  rw [runToks_lit_eq]

lemma runToks_year4 (st : DParts) (cs : List Char) :
    runToks [.year4] st cs =
      match yearFour cs with
      | some p => [({ st with y := p.1 }, p.2)]
      | none => [] := by
  simp only [runToks]

lemma runToks_year2 (st : DParts) (cs : List Char) :
    runToks [.year2] st cs =
      match yearTwo cs with
      | some p => [({ st with y := p.1 }, p.2)]
      | none => [] := by
  simp only [runToks]

lemma validDate_true (y m d : Nat) (h1 : 1 ≤ y) (h2 : y ≤ 9999) (h3 : 1 ≤ m)
    (h4 : m ≤ 12) (h5 : 1 ≤ d) (h6 : d ≤ daysInMonth y m) :
    validDate y m d = true := by
  simp only [validDate, Bool.and_eq_true, decide_eq_true_eq]
  exact ⟨⟨⟨⟨⟨h1, h2⟩, h3⟩, h4⟩, h5⟩, h6⟩

lemma strptimeFmt_of_single (fmt : List DTok) (s : String) (parts : DParts)
    (junk : List (DParts × List Char))
    (h : runToks fmt {} s.data = (parts, []) :: junk)
    (hv : validDate parts.y parts.m parts.d = true) :
    strptimeFmt fmt s = some parts := by
  unfold strptimeFmt
  rw [h]
  simp [hv]

lemma strptimeFmt_of_nil (fmt : List DTok) (s : String)
    (h : runToks fmt {} s.data = []) :
    strptimeFmt fmt s = none := by
  unfold strptimeFmt
  rw [h]
  rfl

lemma daysInMonth_le (y m : Nat) : daysInMonth y m ≤ 31 := by
  unfold daysInMonth
  split_ifs <;> omega

lemma runToks_year4_cons (ts : List DTok) (st : DParts) (y : Nat)
    (rest : List Char) (h : y ≤ 9999) :
    runToks (.year4 :: ts) st (pad4 y ++ rest) = runToks ts { st with y := y } rest := by
  simp only [runToks]
  rw [yearFour_pad4 y h]

lemma runToks_year2_cons (ts : List DTok) (st : DParts) (v : Nat)
    (rest : List Char) (h : v ≤ 99) :
    runToks (.year2 :: ts) st (pad2 v ++ rest) =
      runToks ts { st with y := if v < 69 then 2000 + v else 1900 + v } rest := by
  simp only [runToks]
  rw [yearTwo_pad2 v h]

lemma runToks_year4_on_pad2 (st : DParts) (v : Nat) :
    runToks [.year4] st (pad2 v) = [] :=
  rfl

/-- `%d/%m/%Y` on the slash rendering parses to the original parts. -/
lemma strptime_fmt1_slash (y m d : Nat) (h1 : 1000 ≤ y) (h2 : y ≤ 9999)
    (h3 : 1 ≤ m) (h4 : m ≤ 12) (h5 : 1 ≤ d) (h6 : d ≤ daysInMonth y m) :
    strptimeFmt [.day, .lit '/', .month, .lit '/', .year4] (renderDMYSlash y m d) =
      some { d := d, m := m, y := y } := by
  have hd31 : d ≤ 31 := le_trans h6 (daysInMonth_le y m)
  apply strptimeFmt_of_single _ _ _ []
  · show runToks _ {} (pad2 d ++ '/' :: (pad2 m ++ '/' :: pad4 y)) = _
    rw [runToks_dayfirst [.year4] {} '/' d m (pad4 y) h5 hd31 h3 h4 digitChar_ne_slash,
      show pad4 y = pad4 y ++ [] from (List.append_nil _).symm,
      runToks_year4_cons [] _ y [] h2]
    rfl
  · exact validDate_true y m d (by omega) h2 h3 h4 h5 h6

/-- `%d-%m-%Y` on the dash rendering parses to the original parts. -/
lemma strptime_fmt3_dash (y m d : Nat) (h1 : 1000 ≤ y) (h2 : y ≤ 9999)
    (h3 : 1 ≤ m) (h4 : m ≤ 12) (h5 : 1 ≤ d) (h6 : d ≤ daysInMonth y m) :
    strptimeFmt [.day, .lit '-', .month, .lit '-', .year4] (renderDMYDash y m d) =
      some { d := d, m := m, y := y } := by
  have hd31 : d ≤ 31 := le_trans h6 (daysInMonth_le y m)
  apply strptimeFmt_of_single _ _ _ []
  · show runToks _ {} (pad2 d ++ '-' :: (pad2 m ++ '-' :: pad4 y)) = _
    rw [runToks_dayfirst [.year4] {} '-' d m (pad4 y) h5 hd31 h3 h4 digitChar_ne_dash,
      show pad4 y = pad4 y ++ [] from (List.append_nil _).symm,
      runToks_year4_cons [] _ y [] h2]
    rfl
  · exact validDate_true y m d (by omega) h2 h3 h4 h5 h6

/-- A day-first format with separator `sep` dies on any input whose second
and third characters are not `sep`: helper for the cross-format failures. -/
lemma strptime_dayfirst_dies (sep : Char) (ts : List DTok) (s : String)
    (c1 c2 c3 : Char) (rest : List Char) (hs : s.data = c1 :: c2 :: c3 :: rest)
    (h2 : c2 ≠ sep) (h3 : c3 ≠ sep) :
    strptimeFmt (.day :: .lit sep :: ts) s = none := by
  apply strptimeFmt_of_nil
  rw [hs]
  exact runToks_day_lit_digits ts {} sep c1 c2 c3 rest h2 h3

/-- `%Y-%m-%d` on the ISO rendering: the first backtracking candidate is the
full parse (a one-digit-day candidate with leftover may trail it). -/
lemma strptime_fmt5_iso (y m d : Nat) (h1 : 1000 ≤ y) (h2 : y ≤ 9999)
    (h3 : 1 ≤ m) (h4 : m ≤ 12) (h5 : 1 ≤ d) (h6 : d ≤ daysInMonth y m) :
    strptimeFmt [.year4, .lit '-', .month, .lit '-', .day] (renderISO y m d) =
      some { d := d, m := m, y := y } := by
  have hd31 : d ≤ 31 := le_trans h6 (daysInMonth_le y m)
  have hmm : m % 10 ≤ 9 := Nat.le_of_lt_succ (Nat.mod_lt _ (by norm_num))
  apply strptimeFmt_of_single _ _ _
    (if 10 ≤ d then [({ d := d / 10, m := m, y := y }, [digitChar (d % 10)])] else [])
  · show runToks _ {} (pad4 y ++ '-' :: (pad2 m ++ '-' :: pad2 d)) = _
    rw [runToks_year4_cons [.lit '-', .month, .lit '-', .day] {} y _ h2,
      runToks_lit_eq]
    show (monthAlts _).flatMap _ = _
    rw [monthAlts_pad2 m h3 h4, List.flatMap_cons]
    have hextraM :
        (if 10 ≤ m then [(1, digitChar (m % 10) :: ('-' :: pad2 d))] else []).flatMap
          (fun p => runToks [.lit '-', .day] { d := 0, m := p.1, y := y } p.2) = [] := by
      split_ifs <;> simp [runToks_lit_ne _ _ _ _ _ (digitChar_ne_dash _ hmm)]
    rw [hextraM, List.append_nil]
    show runToks [.lit '-', .day] { d := 0, m := m, y := y } ('-' :: pad2 d) = _
    rw [runToks_lit_eq]
    show (dayAlts _).flatMap _ = _
    rw [show pad2 d = pad2 d ++ [] from (List.append_nil _).symm,
      dayAlts_pad2 d h5 hd31, List.flatMap_cons]
    split_ifs with hd10 <;> simp [runToks]
  · exact validDate_true y m d (by omega) h2 h3 h4 h5 h6

/-- The `%y` 69-rule maps the two low digits back to the original year
exactly on 1969–2068. -/
lemma year2_rule_roundtrip (y : Nat) (hy1 : 1969 ≤ y) (hy2 : y ≤ 2068) :
    (if y % 100 < 69 then 2000 + y % 100 else 1900 + y % 100) = y := by
  split_ifs <;> omega

/-- `%d/%m/%y` on the two-digit-year slash rendering, for years the 69-rule
maps back to themselves. -/
lemma strptime_fmt2_slash2 (y m d : Nat) (hy1 : 1969 ≤ y) (hy2 : y ≤ 2068)
    (h3 : 1 ≤ m) (h4 : m ≤ 12) (h5 : 1 ≤ d) (h6 : d ≤ daysInMonth y m) :
    strptimeFmt [.day, .lit '/', .month, .lit '/', .year2] (renderDMY2Slash y m d) =
      some { d := d, m := m, y := y } := by
  have hd31 : d ≤ 31 := le_trans h6 (daysInMonth_le y m)
  apply strptimeFmt_of_single _ _ _ []
  · show runToks _ {} (pad2 d ++ '/' :: (pad2 m ++ '/' :: pad2 (y % 100))) = _
    rw [runToks_dayfirst [.year2] {} '/' d m (pad2 (y % 100)) h5 hd31 h3 h4
        digitChar_ne_slash,
      show pad2 (y % 100) = pad2 (y % 100) ++ [] from (List.append_nil _).symm,
      runToks_year2_cons [] _ (y % 100) [] (by omega)]
    rw [year2_rule_roundtrip y hy1 hy2]
    rfl
  · exact validDate_true y m d (by omega) (by omega) h3 h4 h5 h6

/-- `%d-%m-%y` on the two-digit-year dash rendering. -/
lemma strptime_fmt4_dash2 (y m d : Nat) (hy1 : 1969 ≤ y) (hy2 : y ≤ 2068)
    (h3 : 1 ≤ m) (h4 : m ≤ 12) (h5 : 1 ≤ d) (h6 : d ≤ daysInMonth y m) :
    strptimeFmt [.day, .lit '-', .month, .lit '-', .year2] (renderDMY2Dash y m d) =
      some { d := d, m := m, y := y } := by
  have hd31 : d ≤ 31 := le_trans h6 (daysInMonth_le y m)
  apply strptimeFmt_of_single _ _ _ []
  · show runToks _ {} (pad2 d ++ '-' :: (pad2 m ++ '-' :: pad2 (y % 100))) = _
    rw [runToks_dayfirst [.year2] {} '-' d m (pad2 (y % 100)) h5 hd31 h3 h4
        digitChar_ne_dash,
      show pad2 (y % 100) = pad2 (y % 100) ++ [] from (List.append_nil _).symm,
      runToks_year2_cons [] _ (y % 100) [] (by omega)]
    rw [year2_rule_roundtrip y hy1 hy2]
    rfl
  · exact validDate_true y m d (by omega) (by omega) h3 h4 h5 h6

/-- Dash formats (`%d-%m-...`) die on slash renderings. -/
lemma strptime_dash_on_slash (ts : List DTok) (y4tail : List Char) (d : Nat) :
    strptimeFmt (.day :: .lit '-' :: ts)
      (String.mk (pad2 d ++ '/' :: y4tail)) = none := by
  have hdm : d % 10 ≤ 9 := Nat.le_of_lt_succ (Nat.mod_lt _ (by norm_num))
  exact strptime_dayfirst_dies '-' ts _ (digitChar (d / 10 % 10))
    (digitChar (d % 10)) '/' y4tail rfl (digitChar_ne_dash _ hdm) (by decide)

/-- Slash formats (`%d/%m/...`) die on dash renderings. -/
lemma strptime_slash_on_dash (ts : List DTok) (y4tail : List Char) (d : Nat) :
    strptimeFmt (.day :: .lit '/' :: ts)
      (String.mk (pad2 d ++ '-' :: y4tail)) = none := by
  have hdm : d % 10 ≤ 9 := Nat.le_of_lt_succ (Nat.mod_lt _ (by norm_num))
  exact strptime_dayfirst_dies '/' ts _ (digitChar (d / 10 % 10))
    (digitChar (d % 10)) '-' y4tail rfl (digitChar_ne_slash _ hdm) (by decide)

/-- Day-first formats die on the ISO rendering: the second and third
characters are year digits, never a separator. -/
lemma strptime_dayfirst_on_iso (sep : Char) (ts : List DTok) (y m d : Nat)
    (hsep : ∀ n, n ≤ 9 → digitChar n ≠ sep) :
    strptimeFmt (.day :: .lit sep :: ts) (renderISO y m d) = none := by
  have hb : y / 100 % 10 ≤ 9 := Nat.le_of_lt_succ (Nat.mod_lt _ (by norm_num))
  have hc : y / 10 % 10 ≤ 9 := Nat.le_of_lt_succ (Nat.mod_lt _ (by norm_num))
  exact strptime_dayfirst_dies sep ts _ (digitChar (y / 1000 % 10))
    (digitChar (y / 100 % 10)) (digitChar (y / 10 % 10))
    (digitChar (y % 10) :: '-' :: (pad2 m ++ '-' :: pad2 d)) rfl
    (hsep _ hb) (hsep _ hc)

/-- `%d/%m/%Y` dies on the two-digit-year slash rendering: the four-digit
year directive finds only two characters. -/
lemma strptime_fmt1_on_slash2 (y m d : Nat) (h3 : 1 ≤ m) (h4 : m ≤ 12)
    (h5 : 1 ≤ d) (hd31 : d ≤ 31) :
    strptimeFmt [.day, .lit '/', .month, .lit '/', .year4]
      (renderDMY2Slash y m d) = none := by
  apply strptimeFmt_of_nil
  show runToks _ {} (pad2 d ++ '/' :: (pad2 m ++ '/' :: pad2 (y % 100))) = []
  rw [runToks_dayfirst [.year4] {} '/' d m (pad2 (y % 100)) h5 hd31 h3 h4
      digitChar_ne_slash]
  exact runToks_year4_on_pad2 _ _

/-- `%d-%m-%Y` dies on the two-digit-year dash rendering. -/
lemma strptime_fmt3_on_dash2 (y m d : Nat) (h3 : 1 ≤ m) (h4 : m ≤ 12)
    (h5 : 1 ≤ d) (hd31 : d ≤ 31) :
    strptimeFmt [.day, .lit '-', .month, .lit '-', .year4]
      (renderDMY2Dash y m d) = none := by
  apply strptimeFmt_of_nil
  show runToks _ {} (pad2 d ++ '-' :: (pad2 m ++ '-' :: pad2 (y % 100))) = []
  rw [runToks_dayfirst [.year4] {} '-' d m (pad2 (y % 100)) h5 hd31 h3 h4
      digitChar_ne_dash]
  exact runToks_year4_on_pad2 _ _

lemma parseDateString_slash (y m d : Nat) (h1 : 1000 ≤ y) (h2 : y ≤ 9999)
    (h3 : 1 ≤ m) (h4 : m ≤ 12) (h5 : 1 ≤ d) (h6 : d ≤ daysInMonth y m) :
    parseDateString (renderDMYSlash y m d) = some (renderISO y m d) := by
  have hf1 := strptime_fmt1_slash y m d h1 h2 h3 h4 h5 h6
  unfold parseDateString dateFormats
  simp only [List.findSome?_cons, hf1]
  rfl

lemma parseDateString_dash (y m d : Nat) (h1 : 1000 ≤ y) (h2 : y ≤ 9999)
    (h3 : 1 ≤ m) (h4 : m ≤ 12) (h5 : 1 ≤ d) (h6 : d ≤ daysInMonth y m) :
    parseDateString (renderDMYDash y m d) = some (renderISO y m d) := by
  have hf1 : strptimeFmt [.day, .lit '/', .month, .lit '/', .year4]
      (renderDMYDash y m d) = none :=
    strptime_slash_on_dash [.month, .lit '/', .year4] (pad2 m ++ '-' :: pad4 y) d
  have hf2 : strptimeFmt [.day, .lit '/', .month, .lit '/', .year2]
      (renderDMYDash y m d) = none :=
    strptime_slash_on_dash [.month, .lit '/', .year2] (pad2 m ++ '-' :: pad4 y) d
  have hf3 := strptime_fmt3_dash y m d h1 h2 h3 h4 h5 h6
  unfold parseDateString dateFormats
  simp only [List.findSome?_cons, hf1, hf2, hf3]
  rfl

lemma parseDateString_iso (y m d : Nat) (h1 : 1000 ≤ y) (h2 : y ≤ 9999)
    (h3 : 1 ≤ m) (h4 : m ≤ 12) (h5 : 1 ≤ d) (h6 : d ≤ daysInMonth y m) :
    parseDateString (renderISO y m d) = some (renderISO y m d) := by
  have hf1 := strptime_dayfirst_on_iso '/' [.month, .lit '/', .year4] y m d
    digitChar_ne_slash
  have hf2 := strptime_dayfirst_on_iso '/' [.month, .lit '/', .year2] y m d
    digitChar_ne_slash
  have hf3 := strptime_dayfirst_on_iso '-' [.month, .lit '-', .year4] y m d
    digitChar_ne_dash
  have hf4 := strptime_dayfirst_on_iso '-' [.month, .lit '-', .year2] y m d
    digitChar_ne_dash
  have hf5 := strptime_fmt5_iso y m d h1 h2 h3 h4 h5 h6
  unfold parseDateString dateFormats
  simp only [List.findSome?_cons, hf1, hf2, hf3, hf4, hf5]
  rfl

lemma parseDateString_slash2 (y m d : Nat) (hy1 : 1969 ≤ y) (hy2 : y ≤ 2068)
    (h3 : 1 ≤ m) (h4 : m ≤ 12) (h5 : 1 ≤ d) (h6 : d ≤ daysInMonth y m) :
    parseDateString (renderDMY2Slash y m d) = some (renderISO y m d) := by
  have hd31 : d ≤ 31 := le_trans h6 (daysInMonth_le y m)
  have hf1 := strptime_fmt1_on_slash2 y m d h3 h4 h5 hd31
  have hf2 := strptime_fmt2_slash2 y m d hy1 hy2 h3 h4 h5 h6
  unfold parseDateString dateFormats
  simp only [List.findSome?_cons, hf1, hf2]
  rfl

lemma parseDateString_dash2 (y m d : Nat) (hy1 : 1969 ≤ y) (hy2 : y ≤ 2068)
    (h3 : 1 ≤ m) (h4 : m ≤ 12) (h5 : 1 ≤ d) (h6 : d ≤ daysInMonth y m) :
    parseDateString (renderDMY2Dash y m d) = some (renderISO y m d) := by
  have hd31 : d ≤ 31 := le_trans h6 (daysInMonth_le y m)
  have hf1 : strptimeFmt [.day, .lit '/', .month, .lit '/', .year4]
      (renderDMY2Dash y m d) = none :=
    strptime_slash_on_dash [.month, .lit '/', .year4]
      (pad2 m ++ '-' :: pad2 (y % 100)) d
  have hf2 : strptimeFmt [.day, .lit '/', .month, .lit '/', .year2]
      (renderDMY2Dash y m d) = none :=
    strptime_slash_on_dash [.month, .lit '/', .year2]
      (pad2 m ++ '-' :: pad2 (y % 100)) d
  have hf3 := strptime_fmt3_on_dash2 y m d h3 h4 h5 hd31
  have hf4 := strptime_fmt4_dash2 y m d hy1 hy2 h3 h4 h5 h6
  unfold parseDateString dateFormats
  simp only [List.findSome?_cons, hf1, hf2, hf3, hf4]
  rfl

/-- Claim C5 counterexample: `01/02/2023` renders January 2, 2023 in the
supported `%m/%d/%Y` format, and `2023-01-02` renders the very same
calendar date in the supported `%Y-%m-%d` format (third and fourth
conjuncts), yet `_parse_date_string` returns `2023-02-01` for the first
rendering and `2023-01-02` for the second: the day-first `%d/%m/%Y` sits
earlier in the priority list and absorbs the month-first rendering.  So two
supported renderings of one date do not normalize identically. -/
theorem date_normalizer_ambiguous_counterexample :
    parseDateString "01/02/2023" = some "2023-02-01" ∧
    parseDateString "2023-01-02" = some "2023-01-02" ∧
    strptimeFmt [.month, .lit '/', .day, .lit '/', .year4] "01/02/2023" =
      some { d := 2, m := 1, y := 2023 } ∧
    strptimeFmt [.year4, .lit '-', .month, .lit '-', .day] "2023-01-02" =
      some { d := 2, m := 1, y := 2023 } ∧
    (some "2023-02-01" : Option String) ≠ some "2023-01-02" := by
  decide

/-- Claim C5 (amended): `_parse_date_string` tries the fixed format list in
priority order and renders the first success as ISO, returning `None` when
every format fails (second and third conjuncts).  Renderings of one
calendar date agree on the resulting ISO string across the day-first and
ISO formats (`%d/%m/%Y`, `%d-%m-%Y`, `%Y-%m-%d`, and — for 1969–2068, the
exact range the two-digit-year 69-rule maps back to itself — `%d/%m/%y`,
`%d-%m-%y`);
renderings in the month-first formats may normalize to a different date,
as the counterexample shows, because an earlier day-first format also
matches them. -/
theorem date_normalizer_corrected :
    (∀ y m d : Nat, 1000 ≤ y → y ≤ 9999 → 1 ≤ m → m ≤ 12 → 1 ≤ d →
      d ≤ daysInMonth y m →
      (parseDateString (renderDMYSlash y m d) = some (renderISO y m d) ∧
       parseDateString (renderDMYDash y m d) = some (renderISO y m d) ∧
       parseDateString (renderISO y m d) = some (renderISO y m d)) ∧
      (1969 ≤ y → y ≤ 2068 →
        parseDateString (renderDMY2Slash y m d) = some (renderISO y m d) ∧
        parseDateString (renderDMY2Dash y m d) = some (renderISO y m d))) ∧
    (∀ s, (∀ fmt ∈ dateFormats, strptimeFmt fmt s = none) →
      parseDateString s = none) ∧
    (∀ s, parseDateString s =
      (dateFormats.findSome? fun fmt => strptimeFmt fmt s).map isoRender) := by
  refine ⟨?_, ?_, fun s => rfl⟩
  · intro y m d h1 h2 h3 h4 h5 h6
    exact ⟨⟨parseDateString_slash y m d h1 h2 h3 h4 h5 h6,
      parseDateString_dash y m d h1 h2 h3 h4 h5 h6,
      parseDateString_iso y m d h1 h2 h3 h4 h5 h6⟩,
      fun hy1 hy2 => ⟨parseDateString_slash2 y m d hy1 hy2 h3 h4 h5 h6,
        parseDateString_dash2 y m d hy1 hy2 h3 h4 h5 h6⟩⟩
  · intro s h
    unfold parseDateString
    rw [List.findSome?_eq_none_iff.mpr h]
    rfl

/-- Witness: the amended theorem applied at January 2, 2023 in all five
agreeing formats, at January 2, 1975 for the two-digit formats on the 1900s
side of the 69-rule, and the failure clause applied to a dateless string. -/
theorem date_normalizer_corrected_witness :
    (parseDateString (renderDMYSlash 2023 1 2) = some (renderISO 2023 1 2) ∧
     parseDateString (renderDMYDash 2023 1 2) = some (renderISO 2023 1 2) ∧
     parseDateString (renderISO 2023 1 2) = some (renderISO 2023 1 2)) ∧
    (parseDateString (renderDMY2Slash 2023 1 2) = some (renderISO 2023 1 2) ∧
     parseDateString (renderDMY2Dash 2023 1 2) = some (renderISO 2023 1 2)) ∧
    (parseDateString (renderDMY2Slash 1975 1 2) = some (renderISO 1975 1 2) ∧
     parseDateString (renderDMY2Dash 1975 1 2) = some (renderISO 1975 1 2)) ∧
    parseDateString "no date here" = none :=
  ⟨(date_normalizer_corrected.1 2023 1 2 (by decide) (by decide) (by decide)
      (by decide) (by decide) (by decide)).1,
   (date_normalizer_corrected.1 2023 1 2 (by decide) (by decide) (by decide)
      (by decide) (by decide) (by decide)).2 (by decide) (by decide),
   (date_normalizer_corrected.1 1975 1 2 (by decide) (by decide) (by decide)
      (by decide) (by decide) (by decide)).2 (by decide) (by decide),
   date_normalizer_corrected.2.1 "no date here" (by decide)⟩

end TrustBooks
